import Mathlib

/-!
Shallow embedding of the CSMA/CA protocol engine of `src/main.py`
(class `CSMACAProtocol` together with `Station`, `Packet`, `Message`).

Modelling conventions:
* Python integers that are ever decremented without a guard (timers, NAV,
  frame durations) are `Int`; counters that only grow and identifiers are `Nat`.
* The global `random` module is replaced by an injected stream of draws
  (field `rand` of `Protocol`); `random.randint(0, n-1)` reads the head of the
  stream modulo `n`, and `random.seed()` is a no-op for an injected source.
* Python mutates aliased `Station` objects in place; here every mutation goes
  through `modifyStation`, which rewrites the station with the given id.
  Station ids are unique in every state built by `add_station`, so the two
  views coincide; helpers re-read a station from the threaded state exactly
  where the Python code reads a live object.
* The GUI layer (coordinates, rendering, the Qt timer) is out of scope; the
  wall-clock timestamp stored by `add_transmission_record` and the derived
  float `channel_utilization` are likewise presentation data and are dropped.
* The Russian log strings produced by the engine are modelled as structured
  events (`Event`), one constructor per `logs.append` site.
-/

namespace CSMACA

inductive PacketType where
  | RTS
  | CTS
  | DATA
  | ACK
deriving DecidableEq, Repr

inductive StationState where
  | IDLE
  | SENSING
  | SENDING_RTS
  | WAITING_CTS
  | SENDING_DATA
  | WAITING_ACK
  | RECEIVING
  | BACKOFF
  | ERROR
deriving DecidableEq, Repr

structure Packet where
  packet_type : PacketType
  sender_id : Nat
  receiver_id : Nat
  data : String
  duration : Int
  message_id : Nat
deriving DecidableEq, Repr

structure Message where
  sender_id : Nat
  receiver_id : Nat
  data : String
  message_id : Nat
deriving DecidableEq, Repr

/-- One entry of `Station.transmission_history`; the source also stores a
wall-clock `time.time()` timestamp, which is outside the discrete-time model. -/
structure TransmissionRecord where
  ptype : PacketType
  success : Bool
deriving DecidableEq, Repr

structure Station where
  id : Nat
  state : StationState
  message_queue : List Message
  current_message : Option Message
  backoff_timer : Int
  timeout_timer : Int
  has_error : Bool
  waiting_for_cts_from : Option Nat
  reserved_for : Option Nat
  retry_counter : Nat
  nav : Int
  difs_timer : Int
  transmission_history : List TransmissionRecord
deriving DecidableEq, Repr

structure Protocol where
  stations : List Station
  channel_busy : Bool
  current_transmission : Option Packet
  transmission_timer : Int
  step_counter : Nat
  last_collision_stations : List Nat
  total_collisions : Nat
  successful_transmissions : Nat
  failed_transmissions : Nat
  active_time : Nat
  rand : List Nat
deriving DecidableEq, Repr

/-- Structured events, one constructor per `logs.append` site of the engine. -/
inductive Event where
  | timeoutExpired (sid : Nat)
  | channelBusyDuringDifs (sid : Nat)
  | difsStart (sid : Nat)
  | backoffStart (sid : Nat) (t : Int)
  | contentionWon (sid : Nat)
  | collisionDetected (sids : List Nat)
  | backoffExpiredChannelBusy (sids : List Nat)
  | rtsSent (sid rid : Nat) (dur : Int)
  | backoffEntered (sid : Nat) (collision : Bool) (t : Int) (attempt : Nat)
  | ctsNotReceived (sid : Nat)
  | ackNotReceived (sid : Nat)
  | receiverResetAfterFail (rid : Nat)
  | retryLimitReached (sid : Nat) (mid : Nat)
  | receiverResetAfterTimeout (rid : Nat)
  | rtsReceived (rid sid : Nat)
  | navSet (sid : Nat) (v : Int)
  | ctsSent (rid sid : Nat)
  | receiverBusyNoCts (rid : Nat)
  | ctsReceived (rid sid : Nat)
  | dataCorrupted (sid : Nat)
  | dataSent (sid rid : Nat)
  | dataReceived (rid sid : Nat) (d : String)
  | receiveFault (rid : Nat)
  | dataErrorDetected (rid : Nat)
  | ackSent (rid sid : Nat)
  | ackReceived (rid sid : Nat)
  | messageDelivered (sid mid : Nat)
deriving DecidableEq, Repr

/-! Protocol constants (`CSMACAProtocol` class attributes). -/

def DIFS : Int := 50
def SIFS : Int := 10
def RTS_TIME : Int := 20
def CTS_TIME : Int := 20
def DATA_TIME : Int := 100
def ACK_TIME : Int := 20
def TIMEOUT : Int := 200
def SLOT_TIME : Int := 20
def CW_MIN : Nat := 4
def CW_MAX : Nat := 32
def MAX_RETRIES : Nat := 10

/-! Basic accessors and mutation helpers. -/

def Protocol.getStation (p : Protocol) (sid : Nat) : Option Station :=
  p.stations.find? (fun s => s.id == sid)

/-- In-place mutation of the station with id `sid` (Python mutates the aliased
object; ids are unique in reachable states, so this is the same operation). -/
def Protocol.modifyStation (p : Protocol) (sid : Nat) (f : Station → Station) : Protocol :=
  { p with stations := p.stations.map (fun s => if s.id == sid then f s else s) }

/-- A `for station in self.stations` loop that rewrites each station. -/
def Protocol.mapStations (p : Protocol) (f : Station → Station) : Protocol :=
  { p with stations := p.stations.map f }

def Protocol.is_channel_idle (p : Protocol) : Bool :=
  !p.channel_busy

/-- `random.randint(0, cw - 1)` read from the injected stream (an exhausted
stream yields 0); `random.seed()` in `_enter_backoff` is a no-op here. -/
def Protocol.draw (p : Protocol) (cw : Nat) : Nat × Protocol :=
  ((match p.rand with
    | [] => 0
    | v :: _ => v % cw),
   { p with rand := p.rand.tail })

/-- Python's `if x:` on an `Optional[int]`: `None` and `0` are falsy. -/
def truthyId : Option Nat → Bool
  | none => false
  | some n => n != 0

def matchesAt : List Char → List Char → Bool
  | [], _ => true
  | _ :: _, [] => false
  | a :: ps, b :: ls => a == b && matchesAt ps ls

def hasSub (pat : List Char) : List Char → Bool
  | [] => pat.isEmpty
  | b :: ls => matchesAt pat (b :: ls) || hasSub pat ls

/-- Python's `"[ОШИБКА_ДАННЫХ]" in packet.data` substring test. -/
def containsMarker (s : String) : Bool :=
  hasSub "[ОШИБКА_ДАННЫХ]".data s.data

/-- `Station.add_transmission_record` (the wall-clock timestamp is dropped). -/
def Station.add_transmission_record (st : Station) (pt : PacketType) (success : Bool) : Station :=
  { st with transmission_history := st.transmission_history ++ [⟨pt, success⟩] }

/-! The engine operations, one definition per method of `CSMACAProtocol`. -/

/-- The `while station_id in existing_ids: station_id += 1` loop of
`add_station`, with explicit fuel; fuel `ids.length + 1` always suffices. -/
def findFreeId (ids : List Nat) : Nat → Nat → Nat
  | c, 0 => c
  | c, fuel + 1 => if c ∈ ids then findFreeId ids (c + 1) fuel else c

/-- `CSMACAProtocol.add_station` (the GUI coordinates are dropped). -/
def Protocol.add_station (p : Protocol) : Protocol × Nat :=
  let ids := p.stations.map (·.id)
  let sid := findFreeId ids (p.stations.length + 1) (p.stations.length + 1)
  let st : Station :=
    ⟨sid, StationState.IDLE, [], none, 0, 0, false, none, none, 0, 0, 0, []⟩
  ({ p with stations := p.stations ++ [st] }, sid)

/-- `CSMACAProtocol.remove_station`. -/
def Protocol.remove_station (p : Protocol) (sid : Nat) : Protocol :=
  { p with stations := p.stations.filter (fun s => s.id != sid) }

/-- `MainWindow.send_message` reduced to its engine effect:
`Station.add_message` on the sender, guarded by the sender's existence. -/
def Protocol.send_message (p : Protocol) (sender_id receiver_id : Nat)
    (data : String) (message_id : Nat) : Protocol :=
  p.modifyStation sender_id (fun s =>
    { s with message_queue := s.message_queue ++ [⟨sender_id, receiver_id, data, message_id⟩] })

/-- `Station.set_error`, reached through the GUI fault-injection buttons. -/
def Protocol.set_error (p : Protocol) (sid : Nat) (v : Bool) : Protocol :=
  p.modifyStation sid (fun s => { s with has_error := v })

/-- `CSMACAProtocol._initiate_transmission`. -/
def Protocol.initiate_transmission (p : Protocol) (sid : Nat) : Protocol × List Event :=
  match p.getStation sid with
  | none => (p, [])
  | some st =>
    match st.message_queue with
    | [] => (p, [])  -- unreachable: the call site guards on a non-empty queue
    | m :: _ =>
      (p.modifyStation sid (fun s =>
        { s with current_message := some m, state := StationState.SENSING, difs_timer := DIFS }),
       [Event.difsStart sid])

/-- `CSMACAProtocol._start_initial_backoff`. -/
def Protocol.start_initial_backoff (p : Protocol) (sid : Nat) : Protocol × List Event :=
  let (slots, p) := p.draw CW_MIN
  let t : Int := (slots : Int) * SLOT_TIME
  (p.modifyStation sid (fun s =>
    { s with retry_counter := 0, backoff_timer := t, state := StationState.BACKOFF }),
   [Event.backoffStart sid t])

/-- `CSMACAProtocol._send_rts`. -/
def Protocol.send_rts (p : Protocol) (sid : Nat) : Protocol × List Event :=
  match p.getStation sid with
  | none => (p, [])
  | some st =>
    match st.current_message with
    | none => (p, [])  -- the source dereferences unconditionally; `None` here would be a runtime fault
    | some msg =>
      let duration : Int := CTS_TIME + SIFS + DATA_TIME + SIFS + ACK_TIME
      let pkt : Packet := ⟨PacketType.RTS, sid, msg.receiver_id, "", duration, msg.message_id⟩
      let p := p.modifyStation sid (fun s => { s with state := StationState.SENDING_RTS })
      ({ p with channel_busy := true, current_transmission := some pkt,
                transmission_timer := RTS_TIME },
       [Event.rtsSent sid msg.receiver_id duration])

/-- `CSMACAProtocol._enter_backoff`. -/
def Protocol.enter_backoff (p : Protocol) (sid : Nat) (collision : Bool) : Protocol × List Event :=
  match p.getStation sid with
  | none => (p, [])
  | some st =>
    let retry := if collision then st.retry_counter + 1 else st.retry_counter
    let cw_exponent := min retry 5
    let cw := min (CW_MIN * 2 ^ cw_exponent) CW_MAX
    let (slots, p) := p.draw cw
    let backoff_time : Int := (slots : Int) * SLOT_TIME
    (p.modifyStation sid (fun s =>
      { s with retry_counter := retry, backoff_timer := backoff_time,
               state := StationState.BACKOFF, timeout_timer := 0,
               waiting_for_cts_from := none }),
     [Event.backoffEntered sid collision backoff_time (retry + 1)])

/-- `CSMACAProtocol._handle_timeout`. -/
def Protocol.handle_timeout (p : Protocol) (sid : Nat) : Protocol × List Event :=
  match p.getStation sid with
  | none => (p, [])
  | some st =>
    let evs0 : List Event :=
      if st.state = StationState.WAITING_CTS then [Event.ctsNotReceived sid]
      else if st.state = StationState.WAITING_ACK then [Event.ackNotReceived sid]
      else []
    let intended_receiver_id : Option Nat :=
      match st.state, st.current_message with
      | StationState.WAITING_CTS, some m => some m.receiver_id
      | StationState.WAITING_ACK, some m => some m.receiver_id
      | _, _ => none
    if MAX_RETRIES - 1 ≤ st.retry_counter then
      let (p, evs1) :=
        if truthyId intended_receiver_id then
          match intended_receiver_id with
          | some rid =>
            match p.getStation rid with
            | some ir =>
              if ir.reserved_for = some sid then
                (p.modifyStation rid (fun s =>
                   { s with state := StationState.IDLE, reserved_for := none }),
                 [Event.receiverResetAfterFail rid])
              else (p, [])
            | none => (p, [])
          | none => (p, [])
        else (p, [])
      let (p, evs2) :=
        match st.current_message with
        | some m =>
          let p := { p with failed_transmissions := p.failed_transmissions + 1 }
          let p := p.modifyStation sid (fun s =>
            match s.message_queue with
            | [] => s
            | m0 :: rest =>
              if m0.message_id = m.message_id then { s with message_queue := rest } else s)
          (p, [Event.retryLimitReached sid m.message_id])
        | none => (p, [])
      let p := p.modifyStation sid (fun s =>
        { s with current_message := none, state := StationState.IDLE,
                 timeout_timer := 0, waiting_for_cts_from := none,
                 has_error := false, retry_counter := 0 })
      (p, evs0 ++ evs1 ++ evs2)
    else
      let (p, evs1) :=
        if truthyId intended_receiver_id then
          match intended_receiver_id with
          | some rid =>
            match p.getStation rid with
            | some ir =>
              if ir.reserved_for = some sid then
                (p.modifyStation rid (fun s =>
                   { s with state := StationState.IDLE, reserved_for := none }),
                 [Event.receiverResetAfterTimeout rid])
              else (p, [])
            | none => (p, [])
          | none => (p, [])
        else (p, [])
      let (p, evs2) := p.enter_backoff sid true
      (p, evs0 ++ evs1 ++ evs2)

/-- `CSMACAProtocol._handle_rts_received`. -/
def Protocol.handle_rts_received (p : Protocol) (pkt : Packet) : Protocol × List Event :=
  match p.getStation pkt.sender_id, p.getStation pkt.receiver_id with
  | some _, some _ =>
    let navEvs := (p.stations.filter
        (fun s => s.id != pkt.sender_id && s.id != pkt.receiver_id)).map
      (fun s => Event.navSet s.id pkt.duration)
    let p := p.mapStations (fun s =>
      if s.id ≠ pkt.sender_id ∧ s.id ≠ pkt.receiver_id then { s with nav := pkt.duration } else s)
    let p := p.modifyStation pkt.sender_id (fun s =>
      { s with state := StationState.WAITING_CTS, timeout_timer := TIMEOUT,
               waiting_for_cts_from := some pkt.receiver_id })
    -- re-read the receiver: the source reads the live (possibly just-mutated) object
    match p.getStation pkt.receiver_id with
    | none => (p, Event.rtsReceived pkt.receiver_id pkt.sender_id :: navEvs)
    | some receiver =>
      if receiver.state = StationState.IDLE ∨ receiver.state = StationState.SENSING then
        let p := p.modifyStation pkt.receiver_id (fun s =>
          { s with state := StationState.RECEIVING, reserved_for := some pkt.sender_id })
        let cts : Packet :=
          ⟨PacketType.CTS, pkt.receiver_id, pkt.sender_id, "",
           pkt.duration - CTS_TIME - SIFS, pkt.message_id⟩
        ({ p with current_transmission := some cts,
                  transmission_timer := SIFS + CTS_TIME, channel_busy := true },
         Event.rtsReceived pkt.receiver_id pkt.sender_id :: navEvs
           ++ [Event.ctsSent pkt.receiver_id pkt.sender_id])
      else
        (p, Event.rtsReceived pkt.receiver_id pkt.sender_id :: navEvs
          ++ [Event.receiverBusyNoCts pkt.receiver_id])
  | _, _ => (p, [])

/-- `CSMACAProtocol._handle_cts_received`. -/
def Protocol.handle_cts_received (p : Protocol) (pkt : Packet) : Protocol × List Event :=
  match p.getStation pkt.sender_id, p.getStation pkt.receiver_id with
  | some _, some _ =>
    let p := p.mapStations (fun s =>
      if s.id ≠ pkt.sender_id ∧ s.id ≠ pkt.receiver_id then
        (if s.nav < pkt.duration then { s with nav := pkt.duration } else s)
      else s)
    match p.getStation pkt.receiver_id with
    | none => (p, [Event.ctsReceived pkt.receiver_id pkt.sender_id])
    | some receiver =>
      if receiver.state = StationState.WAITING_CTS ∧
          receiver.waiting_for_cts_from = some pkt.sender_id then
        let p := p.modifyStation pkt.receiver_id (fun s =>
          { s with timeout_timer := 0, state := StationState.SENDING_DATA })
        match receiver.current_message with
        | none => (p, [Event.ctsReceived pkt.receiver_id pkt.sender_id])
          -- the source dereferences `msg` unconditionally; `None` would be a runtime fault
        | some msg =>
          let corrupted := receiver.has_error
          let dataStr := if corrupted then "[ОШИБКА_ДАННЫХ]" else msg.data
          let dataPkt : Packet :=
            ⟨PacketType.DATA, pkt.receiver_id, pkt.sender_id, dataStr, 0, msg.message_id⟩
          ({ p with current_transmission := some dataPkt,
                    transmission_timer := SIFS + DATA_TIME, channel_busy := true },
           Event.ctsReceived pkt.receiver_id pkt.sender_id
             :: (if corrupted then [Event.dataCorrupted pkt.receiver_id] else [])
             ++ [Event.dataSent pkt.receiver_id pkt.sender_id])
      else (p, [Event.ctsReceived pkt.receiver_id pkt.sender_id])
  | _, _ => (p, [])

/-- `CSMACAProtocol._handle_data_received`. -/
def Protocol.handle_data_received (p : Protocol) (pkt : Packet) : Protocol × List Event :=
  match p.getStation pkt.sender_id, p.getStation pkt.receiver_id with
  | some _, some _ =>
    let p := p.modifyStation pkt.sender_id (fun s =>
      { s with state := StationState.WAITING_ACK, timeout_timer := TIMEOUT })
    match p.getStation pkt.receiver_id with
    | none => (p, [Event.dataReceived pkt.receiver_id pkt.sender_id pkt.data])
    | some receiver =>
      if receiver.has_error then
        let p := p.modifyStation pkt.receiver_id (fun s =>
          { s with state := StationState.IDLE, reserved_for := none })
        let p := { p with failed_transmissions := p.failed_transmissions + 1 }
        let p := p.modifyStation pkt.sender_id
          (fun s => s.add_transmission_record PacketType.DATA false)
        (p, [Event.dataReceived pkt.receiver_id pkt.sender_id pkt.data,
             Event.receiveFault pkt.receiver_id])
      else if containsMarker pkt.data then
        let p := p.modifyStation pkt.receiver_id (fun s =>
          { s with state := StationState.IDLE, reserved_for := none })
        let p := { p with failed_transmissions := p.failed_transmissions + 1 }
        let p := p.modifyStation pkt.sender_id
          (fun s => s.add_transmission_record PacketType.DATA false)
        (p, [Event.dataReceived pkt.receiver_id pkt.sender_id pkt.data,
             Event.dataErrorDetected pkt.receiver_id])
      else
        let ackPkt : Packet :=
          ⟨PacketType.ACK, pkt.receiver_id, pkt.sender_id, "", 0, pkt.message_id⟩
        let p := { p with current_transmission := some ackPkt,
                          transmission_timer := SIFS + ACK_TIME, channel_busy := true }
        let p := p.modifyStation pkt.receiver_id (fun s =>
          { s with state := StationState.IDLE, reserved_for := none })
        (p, [Event.dataReceived pkt.receiver_id pkt.sender_id pkt.data,
             Event.ackSent pkt.receiver_id pkt.sender_id])
  | _, _ => (p, [])

/-- `CSMACAProtocol._handle_ack_received`. -/
def Protocol.handle_ack_received (p : Protocol) (pkt : Packet) : Protocol × List Event :=
  match p.getStation pkt.sender_id, p.getStation pkt.receiver_id with
  | some _, some receiver =>
    if receiver.state = StationState.WAITING_ACK then
      let p := { p with successful_transmissions := p.successful_transmissions + 1 }
      let p := p.modifyStation pkt.receiver_id (fun s =>
        (s.add_transmission_record PacketType.DATA true))
      let p := p.modifyStation pkt.receiver_id (fun s => { s with timeout_timer := 0 })
      let popped :=
        match receiver.message_queue with
        | [] => false
        | m0 :: _ => m0.message_id == pkt.message_id
      let p := p.modifyStation pkt.receiver_id (fun s =>
        match s.message_queue with
        | [] => s
        | m0 :: rest =>
          if m0.message_id = pkt.message_id then { s with message_queue := rest } else s)
      let p := p.modifyStation pkt.receiver_id (fun s =>
        { s with current_message := none, state := StationState.IDLE,
                 has_error := false, retry_counter := 0 })
      (p, Event.ackReceived pkt.receiver_id pkt.sender_id
        :: (if popped then [Event.messageDelivered pkt.receiver_id pkt.message_id] else []))
    else (p, [Event.ackReceived pkt.receiver_id pkt.sender_id])
  | _, _ => (p, [])

/-- `CSMACAProtocol._complete_transmission`.  The source compares object
identity with the original packet; a handler that schedules a reply always
installs a packet of a different `packet_type`, so structural equality
coincides with identity here. -/
def Protocol.complete_transmission (p : Protocol) : Protocol × List Event :=
  match p.current_transmission with
  | none => ({ p with channel_busy := false }, [])
  | some pkt =>
    let (p', evs) :=
      match pkt.packet_type with
      | PacketType.RTS => p.handle_rts_received pkt
      | PacketType.CTS => p.handle_cts_received pkt
      | PacketType.DATA => p.handle_data_received pkt
      | PacketType.ACK => p.handle_ack_received pkt
    if p'.current_transmission = some pkt then
      ({ p' with current_transmission := none, channel_busy := false }, evs)
    else (p', evs)

/-- Body of the `for station in winners` loop of the collision branch of
`_handle_contention_resolution`. -/
def collideOne (acc : Protocol × List Event) (w : Nat) : Protocol × List Event :=
  let p := acc.1.modifyStation w (fun s => s.add_transmission_record PacketType.RTS false)
  let (p, e) := p.enter_backoff w true
  (p, acc.2 ++ e)

/-- Body of the `for station in winners` loop of the channel-busy branch of
`_handle_contention_resolution`. -/
def busyRedrawOne (acc : Protocol × List Event) (w : Nat) : Protocol × List Event :=
  let (p, e) := acc.1.enter_backoff w false
  (p, acc.2 ++ e)

/-- `CSMACAProtocol._handle_contention_resolution`. -/
def Protocol.handle_contention_resolution (p : Protocol) (winners : List Nat) :
    Protocol × List Event :=
  if p.is_channel_idle = true then
    match winners with
    | [w] =>
      let (p, evs) := p.send_rts w
      (p, Event.contentionWon w :: evs)
    | _ =>
      let p := { p with last_collision_stations := winners,
                        total_collisions := p.total_collisions + 1 }
      let (p, evs) := winners.foldl collideOne (p, [])
      (p, Event.collisionDetected winners :: evs)
  else
    let (p, evs) := winners.foldl busyRedrawOne (p, [])
    (p, Event.backoffExpiredChannelBusy winners :: evs)

/-- NAV decrement at the start of `process_step`:
`for station in self.stations: if station.nav > 0: station.nav -= 1`. -/
def Protocol.nav_tick (p : Protocol) : Protocol :=
  p.mapStations (fun s => if s.nav > 0 then { s with nav := s.nav - 1 } else s)

/-- The timeout block at the head of the main loop of `process_step`:
decrement a positive `timeout_timer` and fire `_handle_timeout` at zero. -/
def Protocol.timeout_tick (p : Protocol) (sid : Nat) : Protocol × List Event :=
  match p.getStation sid with
  | none => (p, ([] : List Event))
  | some st =>
    if st.timeout_timer > 0 then
      let p := p.modifyStation sid (fun s => { s with timeout_timer := s.timeout_timer - 1 })
      if st.timeout_timer - 1 = 0 then
        let (p, evs) := p.handle_timeout sid
        (p, Event.timeoutExpired sid :: evs)
      else (p, [])
    else (p, [])

/-- One iteration of the main `for station in self.stations` loop of
`process_step`: the timeout block followed by the per-state block; appends to
the running list of contention winners. -/
def Protocol.station_tick (p : Protocol) (winners : List Nat) (sid : Nat) :
    Protocol × List Nat × List Event :=
  let (p, evs1) := p.timeout_tick sid
  match p.getStation sid with
  | none => (p, winners, evs1)
  | some st =>
    match st.state with
    | StationState.SENSING =>
      if p.is_channel_idle = true ∧ st.nav = 0 then
        let p := p.modifyStation sid (fun s => { s with difs_timer := s.difs_timer - 1 })
        if st.difs_timer - 1 = 0 then
          let (p, evs2) := p.start_initial_backoff sid
          (p, winners, evs1 ++ evs2)
        else (p, winners, evs1)
      else
        let p := p.modifyStation sid (fun s =>
          { s with state := StationState.IDLE, difs_timer := 0 })
        (p, winners, evs1 ++ [Event.channelBusyDuringDifs sid])
    | StationState.BACKOFF =>
      if st.backoff_timer = 0 then (p, winners ++ [sid], evs1)
      else if p.is_channel_idle = true ∧ st.nav = 0 then
        let p := p.modifyStation sid (fun s => { s with backoff_timer := s.backoff_timer - 1 })
        if st.backoff_timer - 1 = 0 then (p, winners ++ [sid], evs1)
        else (p, winners, evs1)
      else (p, winners, evs1)
    | StationState.IDLE =>
      if st.message_queue.length > 0 then
        if p.is_channel_idle = true ∧ st.nav = 0 then
          let (p, evs2) := p.initiate_transmission sid
          (p, winners, evs1 ++ evs2)
        else (p, winners, evs1)
      else (p, winners, evs1)
    | _ => (p, winners, evs1)

/-- The main station loop of `process_step`, iterated over the id snapshot. -/
def Protocol.station_loop (p : Protocol) (ids : List Nat) : Protocol × List Nat × List Event :=
  ids.foldl (fun acc sid =>
    let (p, w, e) := acc.1.station_tick acc.2.1 sid
    (p, w, acc.2.2 ++ e)) (p, [], [])

/-- The bookkeeping at the start of `process_step`: step counter, collision
set reset, channel-utilization accounting, and the NAV decrement loop
(`channel_utilization = active_time / step_counter` is a derived float view). -/
def Protocol.begin_step (p : Protocol) : Protocol :=
  let p := { p with step_counter := p.step_counter + 1, last_collision_stations := [] }
  let p := if p.channel_busy then { p with active_time := p.active_time + 1 } else p
  p.nav_tick

/-- The in-flight frame block of `process_step`: decrement a positive
`transmission_timer` and complete the frame when it reaches zero. -/
def Protocol.transmission_tick (p : Protocol) : Protocol × List Event :=
  if p.transmission_timer > 0 then
    let p := { p with transmission_timer := p.transmission_timer - 1 }
    if p.transmission_timer = 0 then p.complete_transmission else (p, [])
  else (p, [])

/-- `CSMACAProtocol.process_step`. -/
def Protocol.process_step (p : Protocol) : Protocol × List Event :=
  let p := p.begin_step
  let (p, evs0) := p.transmission_tick
  let ids := p.stations.map (·.id)
  let (p, winners, evs1) := p.station_loop ids
  let (p, evs2) :=
    if winners.length > 0 then p.handle_contention_resolution winners else (p, [])
  (p, evs0 ++ evs1 ++ evs2)

/-! External driver operations and reachability. -/

/-- The operations an external driver may perform between/at ticks. -/
inductive Op where
  | addStation
  | removeStation (sid : Nat)
  | sendMessage (sender_id receiver_id : Nat) (data : String) (message_id : Nat)
  | setError (sid : Nat) (v : Bool)
  | step
deriving DecidableEq, Repr

def applyOpTr (p : Protocol) : Op → Protocol × List Event
  | Op.addStation => ((p.add_station).1, [])
  | Op.removeStation sid => (p.remove_station sid, [])
  | Op.sendMessage s r d mid => (p.send_message s r d mid, [])
  | Op.setError sid v => (p.set_error sid v, [])
  | Op.step => p.process_step

def applyOp (p : Protocol) (op : Op) : Protocol :=
  (applyOpTr p op).1

/-- Run a sequence of driver operations, collecting the emitted events. -/
def runOpsTr (p : Protocol) : List Op → Protocol × List Event
  | [] => (p, [])
  | op :: rest =>
    let (p1, e1) := applyOpTr p op
    let (p2, e2) := runOpsTr p1 rest
    (p2, e1 ++ e2)

def runOps (p : Protocol) (ops : List Op) : Protocol :=
  ops.foldl applyOp p

/-- `CSMACAProtocol.__init__` with an injected random stream. -/
def initProtocol (rand : List Nat) : Protocol :=
  ⟨[], false, none, 0, 0, [], 0, 0, 0, 0, rand⟩

/-- Engine states reachable from a fresh engine through driver operations. -/
inductive Reachable : Protocol → Prop where
  | init (rand : List Nat) : Reachable (initProtocol rand)
  | step (p : Protocol) (op : Op) : Reachable p → Reachable (applyOp p op)


/-! Concrete driver scenarios used by the theorems below. -/

def collisionOps : List Op :=
  [Op.addStation, Op.addStation,
   Op.sendMessage 1 2 "a" 1, Op.sendMessage 2 1 "b" 2] ++ List.replicate 61 Op.step

def collisionDemo : Protocol := runOps (initProtocol (List.replicate 40 0)) collisionOps

def idOps : List Op := [Op.addStation, Op.addStation, Op.addStation, Op.removeStation 2]

def idDemo : Protocol := runOps (initProtocol []) idOps

/-! The fault scenario of the specification: stations 1 and 2, station 2
faulted, one message enqueued at station 1, then 3900 ticks — far past the
step 3652 at which the run stabilises.  The run is split into segments of 300
ticks so each segment can be evaluated against a pre-computed checkpoint. -/

def faultRand : List Nat := List.replicate 16 0

def faultPre : List Op :=
  [Op.addStation, Op.addStation, Op.setError 2 true, Op.sendMessage 1 2 "hello" 1]

def stepBlock : List Op := List.replicate 300 Op.step

def faultSeg1 : List Op := faultPre ++ stepBlock

def faultOps : List Op :=
  faultSeg1 ++ stepBlock ++ stepBlock ++ stepBlock ++ stepBlock ++ stepBlock ++
    stepBlock ++ stepBlock ++ stepBlock ++ stepBlock ++ stepBlock ++ stepBlock ++
    stepBlock

/-! Checkpoints of the fault run: `faultCkptN` is the protocol state after
`faultSeg1` followed by `N - 1` further `stepBlock`s, and `faultEvsN` the
events emitted during that segment. -/

def faultCkpt1 : Protocol :=
{ stations := [{ id := 1,
                 state := CSMACA.StationState.WAITING_ACK,
                 message_queue := [{ sender_id := 1,
                                     receiver_id := 2,
                                     data := "hello",
                                     message_id := 1 }],
                 current_message := some { sender_id := 1,
                                           receiver_id := 2,
                                           data := "hello",
                                           message_id := 1 },
                 backoff_timer := 0,
                 timeout_timer := 111,
                 has_error := false,
                 waiting_for_cts_from := some 2,
                 reserved_for := none,
                 retry_counter := 0,
                 nav := 0,
                 difs_timer := 0,
                 transmission_history := [{ ptype := CSMACA.PacketType.DATA, success := false }] },
               { id := 2,
                 state := CSMACA.StationState.IDLE,
                 message_queue := [],
                 current_message := none,
                 backoff_timer := 0,
                 timeout_timer := 0,
                 has_error := true,
                 waiting_for_cts_from := none,
                 reserved_for := none,
                 retry_counter := 0,
                 nav := 0,
                 difs_timer := 0,
                 transmission_history := [] }],
  channel_busy := false,
  current_transmission := none,
  transmission_timer := 0,
  step_counter := 300,
  last_collision_stations := [],
  total_collisions := 0,
  successful_transmissions := 0,
  failed_transmissions := 1,
  active_time := 160,
  rand := [0, 0, 0, 0, 0, 0, 0, 0, 0, 0, 0, 0, 0, 0, 0] }

def faultEvs1 : List Event :=
[CSMACA.Event.difsStart 1,
 CSMACA.Event.backoffStart 1 0,
 CSMACA.Event.contentionWon 1,
 CSMACA.Event.rtsSent 1 2 160,
 CSMACA.Event.rtsReceived 2 1,
 CSMACA.Event.ctsSent 2 1,
 CSMACA.Event.ctsReceived 1 2,
 CSMACA.Event.dataSent 1 2,
 CSMACA.Event.dataReceived 2 1 "hello",
 CSMACA.Event.receiveFault 2]

def faultCkpt2 : Protocol :=
{ stations := [{ id := 1,
                 state := CSMACA.StationState.WAITING_ACK,
                 message_queue := [{ sender_id := 1,
                                     receiver_id := 2,
                                     data := "hello",
                                     message_id := 1 }],
                 current_message := some { sender_id := 1,
                                           receiver_id := 2,
                                           data := "hello",
                                           message_id := 1 },
                 backoff_timer := 0,
                 timeout_timer := 170,
                 has_error := false,
                 waiting_for_cts_from := some 2,
                 reserved_for := none,
                 retry_counter := 1,
                 nav := 0,
                 difs_timer := 0,
                 transmission_history := [{ ptype := CSMACA.PacketType.DATA, success := false },
                                          { ptype := CSMACA.PacketType.DATA, success := false }] },
               { id := 2,
                 state := CSMACA.StationState.IDLE,
                 message_queue := [],
                 current_message := none,
                 backoff_timer := 0,
                 timeout_timer := 0,
                 has_error := true,
                 waiting_for_cts_from := none,
                 reserved_for := none,
                 retry_counter := 0,
                 nav := 0,
                 difs_timer := 0,
                 transmission_history := [] }],
  channel_busy := false,
  current_transmission := none,
  transmission_timer := 0,
  step_counter := 600,
  last_collision_stations := [],
  total_collisions := 0,
  successful_transmissions := 0,
  failed_transmissions := 2,
  active_time := 320,
  rand := [0, 0, 0, 0, 0, 0, 0, 0, 0, 0, 0, 0, 0, 0] }

def faultEvs2 : List Event :=
[CSMACA.Event.timeoutExpired 1,
 CSMACA.Event.ackNotReceived 1,
 CSMACA.Event.backoffEntered 1 true 0 2,
 CSMACA.Event.contentionWon 1,
 CSMACA.Event.rtsSent 1 2 160,
 CSMACA.Event.rtsReceived 2 1,
 CSMACA.Event.ctsSent 2 1,
 CSMACA.Event.ctsReceived 1 2,
 CSMACA.Event.dataSent 1 2,
 CSMACA.Event.dataReceived 2 1 "hello",
 CSMACA.Event.receiveFault 2]

def faultCkpt3 : Protocol :=
{ stations := [{ id := 1,
                 state := CSMACA.StationState.SENDING_DATA,
                 message_queue := [{ sender_id := 1,
                                     receiver_id := 2,
                                     data := "hello",
                                     message_id := 1 }],
                 current_message := some { sender_id := 1,
                                           receiver_id := 2,
                                           data := "hello",
                                           message_id := 1 },
                 backoff_timer := 0,
                 timeout_timer := 0,
                 has_error := false,
                 waiting_for_cts_from := some 2,
                 reserved_for := none,
                 retry_counter := 2,
                 nav := 0,
                 difs_timer := 0,
                 transmission_history := [{ ptype := CSMACA.PacketType.DATA, success := false },
                                          { ptype := CSMACA.PacketType.DATA, success := false }] },
               { id := 2,
                 state := CSMACA.StationState.RECEIVING,
                 message_queue := [],
                 current_message := none,
                 backoff_timer := 0,
                 timeout_timer := 0,
                 has_error := true,
                 waiting_for_cts_from := none,
                 reserved_for := some 1,
                 retry_counter := 0,
                 nav := 0,
                 difs_timer := 0,
                 transmission_history := [] }],
  channel_busy := true,
  current_transmission := some { packet_type := CSMACA.PacketType.DATA,
                                 sender_id := 1,
                                 receiver_id := 2,
                                 data := "hello",
                                 duration := 0,
                                 message_id := 1 },
  transmission_timer := 30,
  step_counter := 900,
  last_collision_stations := [],
  total_collisions := 0,
  successful_transmissions := 0,
  failed_transmissions := 2,
  active_time := 450,
  rand := [0, 0, 0, 0, 0, 0, 0, 0, 0, 0, 0, 0, 0] }

def faultEvs3 : List Event :=
[CSMACA.Event.timeoutExpired 1,
 CSMACA.Event.ackNotReceived 1,
 CSMACA.Event.backoffEntered 1 true 0 3,
 CSMACA.Event.contentionWon 1,
 CSMACA.Event.rtsSent 1 2 160,
 CSMACA.Event.rtsReceived 2 1,
 CSMACA.Event.ctsSent 2 1,
 CSMACA.Event.ctsReceived 1 2,
 CSMACA.Event.dataSent 1 2]

def faultCkpt4 : Protocol :=
{ stations := [{ id := 1,
                 state := CSMACA.StationState.SENDING_DATA,
                 message_queue := [{ sender_id := 1,
                                     receiver_id := 2,
                                     data := "hello",
                                     message_id := 1 }],
                 current_message := some { sender_id := 1,
                                           receiver_id := 2,
                                           data := "hello",
                                           message_id := 1 },
                 backoff_timer := 0,
                 timeout_timer := 0,
                 has_error := false,
                 waiting_for_cts_from := some 2,
                 reserved_for := none,
                 retry_counter := 3,
                 nav := 0,
                 difs_timer := 0,
                 transmission_history := [{ ptype := CSMACA.PacketType.DATA, success := false },
                                          { ptype := CSMACA.PacketType.DATA, success := false },
                                          { ptype := CSMACA.PacketType.DATA, success := false }] },
               { id := 2,
                 state := CSMACA.StationState.RECEIVING,
                 message_queue := [],
                 current_message := none,
                 backoff_timer := 0,
                 timeout_timer := 0,
                 has_error := true,
                 waiting_for_cts_from := none,
                 reserved_for := some 1,
                 retry_counter := 0,
                 nav := 0,
                 difs_timer := 0,
                 transmission_history := [] }],
  channel_busy := true,
  current_transmission := some { packet_type := CSMACA.PacketType.DATA,
                                 sender_id := 1,
                                 receiver_id := 2,
                                 data := "hello",
                                 duration := 0,
                                 message_id := 1 },
  transmission_timer := 89,
  step_counter := 1200,
  last_collision_stations := [],
  total_collisions := 0,
  successful_transmissions := 0,
  failed_transmissions := 3,
  active_time := 551,
  rand := [0, 0, 0, 0, 0, 0, 0, 0, 0, 0, 0, 0] }

def faultEvs4 : List Event :=
[CSMACA.Event.dataReceived 2 1 "hello",
 CSMACA.Event.receiveFault 2,
 CSMACA.Event.timeoutExpired 1,
 CSMACA.Event.ackNotReceived 1,
 CSMACA.Event.backoffEntered 1 true 0 4,
 CSMACA.Event.contentionWon 1,
 CSMACA.Event.rtsSent 1 2 160,
 CSMACA.Event.rtsReceived 2 1,
 CSMACA.Event.ctsSent 2 1,
 CSMACA.Event.ctsReceived 1 2,
 CSMACA.Event.dataSent 1 2]

def faultCkpt5 : Protocol :=
{ stations := [{ id := 1,
                 state := CSMACA.StationState.SENDING_RTS,
                 message_queue := [{ sender_id := 1,
                                     receiver_id := 2,
                                     data := "hello",
                                     message_id := 1 }],
                 current_message := some { sender_id := 1,
                                           receiver_id := 2,
                                           data := "hello",
                                           message_id := 1 },
                 backoff_timer := 0,
                 timeout_timer := 0,
                 has_error := false,
                 waiting_for_cts_from := none,
                 reserved_for := none,
                 retry_counter := 4,
                 nav := 0,
                 difs_timer := 0,
                 transmission_history := [{ ptype := CSMACA.PacketType.DATA, success := false },
                                          { ptype := CSMACA.PacketType.DATA, success := false },
                                          { ptype := CSMACA.PacketType.DATA, success := false },
                                          { ptype := CSMACA.PacketType.DATA, success := false }] },
               { id := 2,
                 state := CSMACA.StationState.IDLE,
                 message_queue := [],
                 current_message := none,
                 backoff_timer := 0,
                 timeout_timer := 0,
                 has_error := true,
                 waiting_for_cts_from := none,
                 reserved_for := none,
                 retry_counter := 0,
                 nav := 0,
                 difs_timer := 0,
                 transmission_history := [] }],
  channel_busy := true,
  current_transmission := some { packet_type := CSMACA.PacketType.RTS,
                                 sender_id := 1,
                                 receiver_id := 2,
                                 data := "",
                                 duration := 160,
                                 message_id := 1 },
  transmission_timer := 8,
  step_counter := 1500,
  last_collision_stations := [],
  total_collisions := 0,
  successful_transmissions := 0,
  failed_transmissions := 4,
  active_time := 652,
  rand := [0, 0, 0, 0, 0, 0, 0, 0, 0, 0, 0] }

def faultEvs5 : List Event :=
[CSMACA.Event.dataReceived 2 1 "hello",
 CSMACA.Event.receiveFault 2,
 CSMACA.Event.timeoutExpired 1,
 CSMACA.Event.ackNotReceived 1,
 CSMACA.Event.backoffEntered 1 true 0 5,
 CSMACA.Event.contentionWon 1,
 CSMACA.Event.rtsSent 1 2 160]

def faultCkpt6 : Protocol :=
{ stations := [{ id := 1,
                 state := CSMACA.StationState.WAITING_ACK,
                 message_queue := [{ sender_id := 1,
                                     receiver_id := 2,
                                     data := "hello",
                                     message_id := 1 }],
                 current_message := some { sender_id := 1,
                                           receiver_id := 2,
                                           data := "hello",
                                           message_id := 1 },
                 backoff_timer := 0,
                 timeout_timer := 47,
                 has_error := false,
                 waiting_for_cts_from := some 2,
                 reserved_for := none,
                 retry_counter := 4,
                 nav := 0,
                 difs_timer := 0,
                 transmission_history := [{ ptype := CSMACA.PacketType.DATA, success := false },
                                          { ptype := CSMACA.PacketType.DATA, success := false },
                                          { ptype := CSMACA.PacketType.DATA, success := false },
                                          { ptype := CSMACA.PacketType.DATA, success := false },
                                          { ptype := CSMACA.PacketType.DATA, success := false }] },
               { id := 2,
                 state := CSMACA.StationState.IDLE,
                 message_queue := [],
                 current_message := none,
                 backoff_timer := 0,
                 timeout_timer := 0,
                 has_error := true,
                 waiting_for_cts_from := none,
                 reserved_for := none,
                 retry_counter := 0,
                 nav := 0,
                 difs_timer := 0,
                 transmission_history := [] }],
  channel_busy := false,
  current_transmission := none,
  transmission_timer := 0,
  step_counter := 1800,
  last_collision_stations := [],
  total_collisions := 0,
  successful_transmissions := 0,
  failed_transmissions := 5,
  active_time := 800,
  rand := [0, 0, 0, 0, 0, 0, 0, 0, 0, 0, 0] }

def faultEvs6 : List Event :=
[CSMACA.Event.rtsReceived 2 1,
 CSMACA.Event.ctsSent 2 1,
 CSMACA.Event.ctsReceived 1 2,
 CSMACA.Event.dataSent 1 2,
 CSMACA.Event.dataReceived 2 1 "hello",
 CSMACA.Event.receiveFault 2]

def faultCkpt7 : Protocol :=
{ stations := [{ id := 1,
                 state := CSMACA.StationState.WAITING_ACK,
                 message_queue := [{ sender_id := 1,
                                     receiver_id := 2,
                                     data := "hello",
                                     message_id := 1 }],
                 current_message := some { sender_id := 1,
                                           receiver_id := 2,
                                           data := "hello",
                                           message_id := 1 },
                 backoff_timer := 0,
                 timeout_timer := 106,
                 has_error := false,
                 waiting_for_cts_from := some 2,
                 reserved_for := none,
                 retry_counter := 5,
                 nav := 0,
                 difs_timer := 0,
                 transmission_history := [{ ptype := CSMACA.PacketType.DATA, success := false },
                                          { ptype := CSMACA.PacketType.DATA, success := false },
                                          { ptype := CSMACA.PacketType.DATA, success := false },
                                          { ptype := CSMACA.PacketType.DATA, success := false },
                                          { ptype := CSMACA.PacketType.DATA, success := false },
                                          { ptype := CSMACA.PacketType.DATA, success := false }] },
               { id := 2,
                 state := CSMACA.StationState.IDLE,
                 message_queue := [],
                 current_message := none,
                 backoff_timer := 0,
                 timeout_timer := 0,
                 has_error := true,
                 waiting_for_cts_from := none,
                 reserved_for := none,
                 retry_counter := 0,
                 nav := 0,
                 difs_timer := 0,
                 transmission_history := [] }],
  channel_busy := false,
  current_transmission := none,
  transmission_timer := 0,
  step_counter := 2100,
  last_collision_stations := [],
  total_collisions := 0,
  successful_transmissions := 0,
  failed_transmissions := 6,
  active_time := 960,
  rand := [0, 0, 0, 0, 0, 0, 0, 0, 0, 0] }

def faultEvs7 : List Event :=
[CSMACA.Event.timeoutExpired 1,
 CSMACA.Event.ackNotReceived 1,
 CSMACA.Event.backoffEntered 1 true 0 6,
 CSMACA.Event.contentionWon 1,
 CSMACA.Event.rtsSent 1 2 160,
 CSMACA.Event.rtsReceived 2 1,
 CSMACA.Event.ctsSent 2 1,
 CSMACA.Event.ctsReceived 1 2,
 CSMACA.Event.dataSent 1 2,
 CSMACA.Event.dataReceived 2 1 "hello",
 CSMACA.Event.receiveFault 2]

def faultCkpt8 : Protocol :=
{ stations := [{ id := 1,
                 state := CSMACA.StationState.WAITING_ACK,
                 message_queue := [{ sender_id := 1,
                                     receiver_id := 2,
                                     data := "hello",
                                     message_id := 1 }],
                 current_message := some { sender_id := 1,
                                           receiver_id := 2,
                                           data := "hello",
                                           message_id := 1 },
                 backoff_timer := 0,
                 timeout_timer := 165,
                 has_error := false,
                 waiting_for_cts_from := some 2,
                 reserved_for := none,
                 retry_counter := 6,
                 nav := 0,
                 difs_timer := 0,
                 transmission_history := [{ ptype := CSMACA.PacketType.DATA, success := false },
                                          { ptype := CSMACA.PacketType.DATA, success := false },
                                          { ptype := CSMACA.PacketType.DATA, success := false },
                                          { ptype := CSMACA.PacketType.DATA, success := false },
                                          { ptype := CSMACA.PacketType.DATA, success := false },
                                          { ptype := CSMACA.PacketType.DATA, success := false },
                                          { ptype := CSMACA.PacketType.DATA, success := false }] },
               { id := 2,
                 state := CSMACA.StationState.IDLE,
                 message_queue := [],
                 current_message := none,
                 backoff_timer := 0,
                 timeout_timer := 0,
                 has_error := true,
                 waiting_for_cts_from := none,
                 reserved_for := none,
                 retry_counter := 0,
                 nav := 0,
                 difs_timer := 0,
                 transmission_history := [] }],
  channel_busy := false,
  current_transmission := none,
  transmission_timer := 0,
  step_counter := 2400,
  last_collision_stations := [],
  total_collisions := 0,
  successful_transmissions := 0,
  failed_transmissions := 7,
  active_time := 1120,
  rand := [0, 0, 0, 0, 0, 0, 0, 0, 0] }

def faultEvs8 : List Event :=
[CSMACA.Event.timeoutExpired 1,
 CSMACA.Event.ackNotReceived 1,
 CSMACA.Event.backoffEntered 1 true 0 7,
 CSMACA.Event.contentionWon 1,
 CSMACA.Event.rtsSent 1 2 160,
 CSMACA.Event.rtsReceived 2 1,
 CSMACA.Event.ctsSent 2 1,
 CSMACA.Event.ctsReceived 1 2,
 CSMACA.Event.dataSent 1 2,
 CSMACA.Event.dataReceived 2 1 "hello",
 CSMACA.Event.receiveFault 2]

def faultCkpt9 : Protocol :=
{ stations := [{ id := 1,
                 state := CSMACA.StationState.SENDING_DATA,
                 message_queue := [{ sender_id := 1,
                                     receiver_id := 2,
                                     data := "hello",
                                     message_id := 1 }],
                 current_message := some { sender_id := 1,
                                           receiver_id := 2,
                                           data := "hello",
                                           message_id := 1 },
                 backoff_timer := 0,
                 timeout_timer := 0,
                 has_error := false,
                 waiting_for_cts_from := some 2,
                 reserved_for := none,
                 retry_counter := 7,
                 nav := 0,
                 difs_timer := 0,
                 transmission_history := [{ ptype := CSMACA.PacketType.DATA, success := false },
                                          { ptype := CSMACA.PacketType.DATA, success := false },
                                          { ptype := CSMACA.PacketType.DATA, success := false },
                                          { ptype := CSMACA.PacketType.DATA, success := false },
                                          { ptype := CSMACA.PacketType.DATA, success := false },
                                          { ptype := CSMACA.PacketType.DATA, success := false },
                                          { ptype := CSMACA.PacketType.DATA, success := false }] },
               { id := 2,
                 state := CSMACA.StationState.RECEIVING,
                 message_queue := [],
                 current_message := none,
                 backoff_timer := 0,
                 timeout_timer := 0,
                 has_error := true,
                 waiting_for_cts_from := none,
                 reserved_for := some 1,
                 retry_counter := 0,
                 nav := 0,
                 difs_timer := 0,
                 transmission_history := [] }],
  channel_busy := true,
  current_transmission := some { packet_type := CSMACA.PacketType.DATA,
                                 sender_id := 1,
                                 receiver_id := 2,
                                 data := "hello",
                                 duration := 0,
                                 message_id := 1 },
  transmission_timer := 25,
  step_counter := 2700,
  last_collision_stations := [],
  total_collisions := 0,
  successful_transmissions := 0,
  failed_transmissions := 7,
  active_time := 1255,
  rand := [0, 0, 0, 0, 0, 0, 0, 0] }

def faultEvs9 : List Event :=
[CSMACA.Event.timeoutExpired 1,
 CSMACA.Event.ackNotReceived 1,
 CSMACA.Event.backoffEntered 1 true 0 8,
 CSMACA.Event.contentionWon 1,
 CSMACA.Event.rtsSent 1 2 160,
 CSMACA.Event.rtsReceived 2 1,
 CSMACA.Event.ctsSent 2 1,
 CSMACA.Event.ctsReceived 1 2,
 CSMACA.Event.dataSent 1 2]

def faultCkpt10 : Protocol :=
{ stations := [{ id := 1,
                 state := CSMACA.StationState.SENDING_DATA,
                 message_queue := [{ sender_id := 1,
                                     receiver_id := 2,
                                     data := "hello",
                                     message_id := 1 }],
                 current_message := some { sender_id := 1,
                                           receiver_id := 2,
                                           data := "hello",
                                           message_id := 1 },
                 backoff_timer := 0,
                 timeout_timer := 0,
                 has_error := false,
                 waiting_for_cts_from := some 2,
                 reserved_for := none,
                 retry_counter := 8,
                 nav := 0,
                 difs_timer := 0,
                 transmission_history := [{ ptype := CSMACA.PacketType.DATA, success := false },
                                          { ptype := CSMACA.PacketType.DATA, success := false },
                                          { ptype := CSMACA.PacketType.DATA, success := false },
                                          { ptype := CSMACA.PacketType.DATA, success := false },
                                          { ptype := CSMACA.PacketType.DATA, success := false },
                                          { ptype := CSMACA.PacketType.DATA, success := false },
                                          { ptype := CSMACA.PacketType.DATA, success := false },
                                          { ptype := CSMACA.PacketType.DATA, success := false }] },
               { id := 2,
                 state := CSMACA.StationState.RECEIVING,
                 message_queue := [],
                 current_message := none,
                 backoff_timer := 0,
                 timeout_timer := 0,
                 has_error := true,
                 waiting_for_cts_from := none,
                 reserved_for := some 1,
                 retry_counter := 0,
                 nav := 0,
                 difs_timer := 0,
                 transmission_history := [] }],
  channel_busy := true,
  current_transmission := some { packet_type := CSMACA.PacketType.DATA,
                                 sender_id := 1,
                                 receiver_id := 2,
                                 data := "hello",
                                 duration := 0,
                                 message_id := 1 },
  transmission_timer := 84,
  step_counter := 3000,
  last_collision_stations := [],
  total_collisions := 0,
  successful_transmissions := 0,
  failed_transmissions := 8,
  active_time := 1356,
  rand := [0, 0, 0, 0, 0, 0, 0] }

def faultEvs10 : List Event :=
[CSMACA.Event.dataReceived 2 1 "hello",
 CSMACA.Event.receiveFault 2,
 CSMACA.Event.timeoutExpired 1,
 CSMACA.Event.ackNotReceived 1,
 CSMACA.Event.backoffEntered 1 true 0 9,
 CSMACA.Event.contentionWon 1,
 CSMACA.Event.rtsSent 1 2 160,
 CSMACA.Event.rtsReceived 2 1,
 CSMACA.Event.ctsSent 2 1,
 CSMACA.Event.ctsReceived 1 2,
 CSMACA.Event.dataSent 1 2]

def faultCkpt11 : Protocol :=
{ stations := [{ id := 1,
                 state := CSMACA.StationState.SENDING_RTS,
                 message_queue := [{ sender_id := 1,
                                     receiver_id := 2,
                                     data := "hello",
                                     message_id := 1 }],
                 current_message := some { sender_id := 1,
                                           receiver_id := 2,
                                           data := "hello",
                                           message_id := 1 },
                 backoff_timer := 0,
                 timeout_timer := 0,
                 has_error := false,
                 waiting_for_cts_from := none,
                 reserved_for := none,
                 retry_counter := 9,
                 nav := 0,
                 difs_timer := 0,
                 transmission_history := [{ ptype := CSMACA.PacketType.DATA, success := false },
                                          { ptype := CSMACA.PacketType.DATA, success := false },
                                          { ptype := CSMACA.PacketType.DATA, success := false },
                                          { ptype := CSMACA.PacketType.DATA, success := false },
                                          { ptype := CSMACA.PacketType.DATA, success := false },
                                          { ptype := CSMACA.PacketType.DATA, success := false },
                                          { ptype := CSMACA.PacketType.DATA, success := false },
                                          { ptype := CSMACA.PacketType.DATA, success := false },
                                          { ptype := CSMACA.PacketType.DATA, success := false }] },
               { id := 2,
                 state := CSMACA.StationState.IDLE,
                 message_queue := [],
                 current_message := none,
                 backoff_timer := 0,
                 timeout_timer := 0,
                 has_error := true,
                 waiting_for_cts_from := none,
                 reserved_for := none,
                 retry_counter := 0,
                 nav := 0,
                 difs_timer := 0,
                 transmission_history := [] }],
  channel_busy := true,
  current_transmission := some { packet_type := CSMACA.PacketType.RTS,
                                 sender_id := 1,
                                 receiver_id := 2,
                                 data := "",
                                 duration := 160,
                                 message_id := 1 },
  transmission_timer := 3,
  step_counter := 3300,
  last_collision_stations := [],
  total_collisions := 0,
  successful_transmissions := 0,
  failed_transmissions := 9,
  active_time := 1457,
  rand := [0, 0, 0, 0, 0, 0] }

def faultEvs11 : List Event :=
[CSMACA.Event.dataReceived 2 1 "hello",
 CSMACA.Event.receiveFault 2,
 CSMACA.Event.timeoutExpired 1,
 CSMACA.Event.ackNotReceived 1,
 CSMACA.Event.backoffEntered 1 true 0 10,
 CSMACA.Event.contentionWon 1,
 CSMACA.Event.rtsSent 1 2 160]

def faultCkpt12 : Protocol :=
{ stations := [{ id := 1,
                 state := CSMACA.StationState.WAITING_ACK,
                 message_queue := [{ sender_id := 1,
                                     receiver_id := 2,
                                     data := "hello",
                                     message_id := 1 }],
                 current_message := some { sender_id := 1,
                                           receiver_id := 2,
                                           data := "hello",
                                           message_id := 1 },
                 backoff_timer := 0,
                 timeout_timer := 42,
                 has_error := false,
                 waiting_for_cts_from := some 2,
                 reserved_for := none,
                 retry_counter := 9,
                 nav := 0,
                 difs_timer := 0,
                 transmission_history := [{ ptype := CSMACA.PacketType.DATA, success := false },
                                          { ptype := CSMACA.PacketType.DATA, success := false },
                                          { ptype := CSMACA.PacketType.DATA, success := false },
                                          { ptype := CSMACA.PacketType.DATA, success := false },
                                          { ptype := CSMACA.PacketType.DATA, success := false },
                                          { ptype := CSMACA.PacketType.DATA, success := false },
                                          { ptype := CSMACA.PacketType.DATA, success := false },
                                          { ptype := CSMACA.PacketType.DATA, success := false },
                                          { ptype := CSMACA.PacketType.DATA, success := false },
                                          { ptype := CSMACA.PacketType.DATA, success := false }] },
               { id := 2,
                 state := CSMACA.StationState.IDLE,
                 message_queue := [],
                 current_message := none,
                 backoff_timer := 0,
                 timeout_timer := 0,
                 has_error := true,
                 waiting_for_cts_from := none,
                 reserved_for := none,
                 retry_counter := 0,
                 nav := 0,
                 difs_timer := 0,
                 transmission_history := [] }],
  channel_busy := false,
  current_transmission := none,
  transmission_timer := 0,
  step_counter := 3600,
  last_collision_stations := [],
  total_collisions := 0,
  successful_transmissions := 0,
  failed_transmissions := 10,
  active_time := 1600,
  rand := [0, 0, 0, 0, 0, 0] }

def faultEvs12 : List Event :=
[CSMACA.Event.rtsReceived 2 1,
 CSMACA.Event.ctsSent 2 1,
 CSMACA.Event.ctsReceived 1 2,
 CSMACA.Event.dataSent 1 2,
 CSMACA.Event.dataReceived 2 1 "hello",
 CSMACA.Event.receiveFault 2]

def faultCkpt13 : Protocol :=
{ stations := [{ id := 1,
                 state := CSMACA.StationState.IDLE,
                 message_queue := [],
                 current_message := none,
                 backoff_timer := 0,
                 timeout_timer := 0,
                 has_error := false,
                 waiting_for_cts_from := none,
                 reserved_for := none,
                 retry_counter := 0,
                 nav := 0,
                 difs_timer := 0,
                 transmission_history := [{ ptype := CSMACA.PacketType.DATA, success := false },
                                          { ptype := CSMACA.PacketType.DATA, success := false },
                                          { ptype := CSMACA.PacketType.DATA, success := false },
                                          { ptype := CSMACA.PacketType.DATA, success := false },
                                          { ptype := CSMACA.PacketType.DATA, success := false },
                                          { ptype := CSMACA.PacketType.DATA, success := false },
                                          { ptype := CSMACA.PacketType.DATA, success := false },
                                          { ptype := CSMACA.PacketType.DATA, success := false },
                                          { ptype := CSMACA.PacketType.DATA, success := false },
                                          { ptype := CSMACA.PacketType.DATA, success := false }] },
               { id := 2,
                 state := CSMACA.StationState.IDLE,
                 message_queue := [],
                 current_message := none,
                 backoff_timer := 0,
                 timeout_timer := 0,
                 has_error := true,
                 waiting_for_cts_from := none,
                 reserved_for := none,
                 retry_counter := 0,
                 nav := 0,
                 difs_timer := 0,
                 transmission_history := [] }],
  channel_busy := false,
  current_transmission := none,
  transmission_timer := 0,
  step_counter := 3900,
  last_collision_stations := [],
  total_collisions := 0,
  successful_transmissions := 0,
  failed_transmissions := 11,
  active_time := 1600,
  rand := [0, 0, 0, 0, 0, 0] }

def faultEvs13 : List Event :=
[CSMACA.Event.timeoutExpired 1, CSMACA.Event.ackNotReceived 1, CSMACA.Event.retryLimitReached 1 1]

end CSMACA

namespace CSMACA

/-! Infrastructure lemmas about station lookup and mutation. -/

theorem find?_map_update (l : List Station) (sid : Nat) (f : Station → Station)
    (hf : ∀ s, (f s).id = s.id) :
    (l.map (fun s => if s.id == sid then f s else s)).find? (fun s => s.id == sid)
      = (l.find? (fun s => s.id == sid)).map f := by
  induction l with
  | nil => rfl
  | cons a t ih =>
    by_cases h : a.id = sid
    · have hb : (a.id == sid) = true := by simpa using h
      have hb' : ((f a).id == sid) = true := by rw [hf]; exact hb
      rw [List.map_cons, if_pos hb]
      simp only [List.find?, hb, hb']
      rfl
    · have hb : (a.id == sid) = false := by simpa using h
      rw [List.map_cons, if_neg (by simp [hb])]
      simp only [List.find?, hb]
      exact ih

theorem find?_map_update_ne (l : List Station) (sid sid' : Nat) (f : Station → Station)
    (h : sid' ≠ sid) (hf : ∀ s, (f s).id = s.id) :
    (l.map (fun s => if s.id == sid then f s else s)).find? (fun s => s.id == sid')
      = l.find? (fun s => s.id == sid') := by
  induction l with
  | nil => rfl
  | cons a t ih =>
    by_cases ha : a.id = sid
    · have hb : (a.id == sid) = true := by simpa using ha
      have hne : (a.id == sid') = false := by simp; omega
      have hne' : ((f a).id == sid') = false := by rw [hf]; exact hne
      rw [List.map_cons, if_pos hb]
      simp only [List.find?, hne, hne']
      exact ih
    · have hb : (a.id == sid) = false := by simpa using ha
      by_cases ha' : a.id = sid'
      · have hb' : (a.id == sid') = true := by simpa using ha'
        rw [List.map_cons, if_neg (by simp [hb])]
        simp only [List.find?, hb']
      · have hb' : (a.id == sid') = false := by simpa using ha'
        rw [List.map_cons, if_neg (by simp [hb])]
        simp only [List.find?, hb']
        exact ih

theorem find?_map_congr (l : List Station) (f : Station → Station)
    (hf : ∀ s, (f s).id = s.id) (sid : Nat) :
    (l.map f).find? (fun s => s.id == sid) = (l.find? (fun s => s.id == sid)).map f := by
  induction l with
  | nil => rfl
  | cons a t ih =>
    by_cases h : a.id = sid
    · have hb : (a.id == sid) = true := by simpa using h
      have hb' : ((f a).id == sid) = true := by rw [hf]; exact hb
      rw [List.map_cons]
      simp only [List.find?, hb, hb']
      rfl
    · have hb : (a.id == sid) = false := by simpa using h
      have hb' : ((f a).id == sid) = false := by rw [hf]; exact hb
      rw [List.map_cons]
      simp only [List.find?, hb, hb']
      exact ih

theorem getStation_modify_self (p : Protocol) (sid : Nat) (f : Station → Station)
    (hf : ∀ s, (f s).id = s.id) :
    (p.modifyStation sid f).getStation sid = (p.getStation sid).map f :=
  find?_map_update p.stations sid f hf

theorem getStation_modify_ne (p : Protocol) (sid sid' : Nat) (f : Station → Station)
    (h : sid' ≠ sid) (hf : ∀ s, (f s).id = s.id) :
    (p.modifyStation sid f).getStation sid' = p.getStation sid' :=
  find?_map_update_ne p.stations sid sid' f h hf

theorem getStation_mapStations (p : Protocol) (f : Station → Station)
    (hf : ∀ s, (f s).id = s.id) (sid : Nat) :
    (p.mapStations f).getStation sid = (p.getStation sid).map f :=
  find?_map_congr p.stations f hf sid

theorem getStation_id (p : Protocol) (sid : Nat) (st : Station)
    (h : p.getStation sid = some st) : st.id = sid := by
  simp only [Protocol.getStation] at h
  have := List.find?_some h
  simpa using this

/-! Frame lemmas: station mutations leave channel state and counters alone,
and channel/counter updates leave the station list alone. -/

@[simp] theorem modifyStation_channel_busy (p : Protocol) (sid : Nat) (f : Station → Station) :
    (p.modifyStation sid f).channel_busy = p.channel_busy := rfl

@[simp] theorem modifyStation_current_transmission (p : Protocol) (sid : Nat)
    (f : Station → Station) :
    (p.modifyStation sid f).current_transmission = p.current_transmission := rfl

@[simp] theorem modifyStation_transmission_timer (p : Protocol) (sid : Nat)
    (f : Station → Station) :
    (p.modifyStation sid f).transmission_timer = p.transmission_timer := rfl

@[simp] theorem modifyStation_total_collisions (p : Protocol) (sid : Nat)
    (f : Station → Station) :
    (p.modifyStation sid f).total_collisions = p.total_collisions := rfl

@[simp] theorem modifyStation_successful (p : Protocol) (sid : Nat) (f : Station → Station) :
    (p.modifyStation sid f).successful_transmissions = p.successful_transmissions := rfl

@[simp] theorem modifyStation_failed (p : Protocol) (sid : Nat) (f : Station → Station) :
    (p.modifyStation sid f).failed_transmissions = p.failed_transmissions := rfl

@[simp] theorem modifyStation_rand (p : Protocol) (sid : Nat) (f : Station → Station) :
    (p.modifyStation sid f).rand = p.rand := rfl

@[simp] theorem mapStations_channel_busy (p : Protocol) (f : Station → Station) :
    (p.mapStations f).channel_busy = p.channel_busy := rfl

@[simp] theorem mapStations_current_transmission (p : Protocol) (f : Station → Station) :
    (p.mapStations f).current_transmission = p.current_transmission := rfl

@[simp] theorem mapStations_transmission_timer (p : Protocol) (f : Station → Station) :
    (p.mapStations f).transmission_timer = p.transmission_timer := rfl

@[simp] theorem mapStations_total_collisions (p : Protocol) (f : Station → Station) :
    (p.mapStations f).total_collisions = p.total_collisions := rfl

@[simp] theorem mapStations_successful (p : Protocol) (f : Station → Station) :
    (p.mapStations f).successful_transmissions = p.successful_transmissions := rfl

@[simp] theorem mapStations_failed (p : Protocol) (f : Station → Station) :
    (p.mapStations f).failed_transmissions = p.failed_transmissions := rfl

@[simp] theorem getStation_set_busy (p : Protocol) (b : Bool) (sid : Nat) :
    ({ p with channel_busy := b } : Protocol).getStation sid = p.getStation sid := rfl

@[simp] theorem getStation_schedule (p : Protocol) (ct : Option Packet) (tt : Int) (b : Bool)
    (sid : Nat) :
    ({ p with current_transmission := ct, transmission_timer := tt,
              channel_busy := b } : Protocol).getStation sid = p.getStation sid := rfl

@[simp] theorem getStation_clear_channel (p : Protocol) (ct : Option Packet) (b : Bool)
    (sid : Nat) :
    ({ p with current_transmission := ct, channel_busy := b } : Protocol).getStation sid
      = p.getStation sid := rfl

@[simp] theorem getStation_set_failed (p : Protocol) (n : Nat) (sid : Nat) :
    ({ p with failed_transmissions := n } : Protocol).getStation sid = p.getStation sid := rfl

@[simp] theorem getStation_set_successful (p : Protocol) (n : Nat) (sid : Nat) :
    ({ p with successful_transmissions := n } : Protocol).getStation sid = p.getStation sid := rfl

@[simp] theorem getStation_set_collisions (p : Protocol) (l : List Nat) (n : Nat) (sid : Nat) :
    ({ p with last_collision_stations := l, total_collisions := n } : Protocol).getStation sid
      = p.getStation sid := rfl

@[simp] theorem getStation_set_rand (p : Protocol) (r : List Nat) (sid : Nat) :
    ({ p with rand := r } : Protocol).getStation sid = p.getStation sid := rfl

@[simp] theorem draw_snd (p : Protocol) (cw : Nat) :
    (p.draw cw).2 = { p with rand := p.rand.tail } := rfl

theorem draw_fst_lt (p : Protocol) (cw : Nat) (h : 0 < cw) : (p.draw cw).1 < cw := by
  cases hr : p.rand with
  | nil => simpa [Protocol.draw, hr] using h
  | cons v r => simpa [Protocol.draw, hr] using Nat.mod_lt v h

theorem cw_pos (e : Nat) : 0 < min (CW_MIN * 2 ^ e) CW_MAX := by
  refine lt_min ?_ ?_
  · exact Nat.mul_pos (by decide) (Nat.pos_pow_of_pos e (by decide))
  · decide

/-! Specification lemmas for `_enter_backoff`. -/

theorem enter_backoff_getStation_self (p : Protocol) (sid : Nat) (c : Bool) (st : Station)
    (h : p.getStation sid = some st) :
    ∃ slots : Nat,
      slots < min (CW_MIN * 2 ^ min (if c then st.retry_counter + 1 else st.retry_counter) 5)
          CW_MAX ∧
      (p.enter_backoff sid c).1.getStation sid = some
        { st with retry_counter := (if c then st.retry_counter + 1 else st.retry_counter),
                  backoff_timer := (slots : Int) * SLOT_TIME,
                  state := StationState.BACKOFF, timeout_timer := 0,
                  waiting_for_cts_from := none } := by
  refine ⟨(p.draw (min (CW_MIN * 2 ^ min (if c then st.retry_counter + 1 else st.retry_counter) 5)
    CW_MAX)).1, draw_fst_lt _ _ (cw_pos _), ?_⟩
  simp only [Protocol.enter_backoff, h, draw_snd]
  refine (getStation_modify_self _ _ _ ?_).trans ?_
  · intro s; rfl
  · rw [getStation_set_rand, h]
    rfl

theorem enter_backoff_getStation_ne (p : Protocol) (sid sid' : Nat) (c : Bool)
    (h : sid' ≠ sid) :
    (p.enter_backoff sid c).1.getStation sid' = p.getStation sid' := by
  cases hs : p.getStation sid with
  | none => simp [Protocol.enter_backoff, hs]
  | some st =>
    simp only [Protocol.enter_backoff, hs, draw_snd]
    refine (getStation_modify_ne _ _ _ _ h ?_).trans ?_
    · intro s; rfl
    · rw [getStation_set_rand]

@[simp] theorem enter_backoff_channel_busy (p : Protocol) (sid : Nat) (c : Bool) :
    (p.enter_backoff sid c).1.channel_busy = p.channel_busy := by
  cases hs : p.getStation sid <;> simp [Protocol.enter_backoff, hs]

@[simp] theorem enter_backoff_current_transmission (p : Protocol) (sid : Nat) (c : Bool) :
    (p.enter_backoff sid c).1.current_transmission = p.current_transmission := by
  cases hs : p.getStation sid <;> simp [Protocol.enter_backoff, hs]

@[simp] theorem enter_backoff_transmission_timer (p : Protocol) (sid : Nat) (c : Bool) :
    (p.enter_backoff sid c).1.transmission_timer = p.transmission_timer := by
  cases hs : p.getStation sid <;> simp [Protocol.enter_backoff, hs]

@[simp] theorem enter_backoff_total_collisions (p : Protocol) (sid : Nat) (c : Bool) :
    (p.enter_backoff sid c).1.total_collisions = p.total_collisions := by
  cases hs : p.getStation sid <;> simp [Protocol.enter_backoff, hs]

@[simp] theorem enter_backoff_successful (p : Protocol) (sid : Nat) (c : Bool) :
    (p.enter_backoff sid c).1.successful_transmissions = p.successful_transmissions := by
  cases hs : p.getStation sid <;> simp [Protocol.enter_backoff, hs]

@[simp] theorem enter_backoff_failed (p : Protocol) (sid : Nat) (c : Bool) :
    (p.enter_backoff sid c).1.failed_transmissions = p.failed_transmissions := by
  cases hs : p.getStation sid <;> simp [Protocol.enter_backoff, hs]

/-! Claim C2: determinism. -/

/-- C2: the engine is deterministic given its random draws: two runs started
from identical engine states (the injected random stream is part of the state),
driven by identical operation sequences, produce identical resulting states,
counters, and event sequences. -/
theorem engine_deterministic (p₁ p₂ : Protocol) (ops₁ ops₂ : List Op)
    (hp : p₁ = p₂) (hops : ops₁ = ops₂) :
    runOpsTr p₁ ops₁ = runOpsTr p₂ ops₂ := by
  subst hp; subst hops; rfl

theorem engine_deterministic_witness :
    runOpsTr (initProtocol [3, 1, 2]) [Op.addStation, Op.addStation,
        Op.sendMessage 1 2 "hi" 1, Op.step, Op.step]
      = runOpsTr (initProtocol [3, 1, 2]) [Op.addStation, Op.addStation,
        Op.sendMessage 1 2 "hi" 1, Op.step, Op.step] :=
  engine_deterministic _ _ _ _ rfl rfl

/-! Claim C7: NAV bookkeeping asymmetry between RTS and CTS. -/

/-- C7: when an RTS frame completes (`_handle_rts_received`, with both
endpoints present), every station other than sender and receiver has its `nav`
overwritten to the frame's duration; when a CTS frame completes
(`_handle_cts_received`), every such overhearer gets `nav = max nav duration`,
never shrinking an existing reservation. -/
theorem nav_update_asymmetry :
    (∀ (p : Protocol) (pkt : Packet) (w : Nat) (st ss rs : Station),
       p.getStation pkt.sender_id = some ss →
       p.getStation pkt.receiver_id = some rs →
       p.getStation w = some st →
       w ≠ pkt.sender_id → w ≠ pkt.receiver_id →
       (p.handle_rts_received pkt).1.getStation w = some { st with nav := pkt.duration })
    ∧ (∀ (p : Protocol) (pkt : Packet) (w : Nat) (st ss rs : Station),
       p.getStation pkt.sender_id = some ss →
       p.getStation pkt.receiver_id = some rs →
       p.getStation w = some st →
       w ≠ pkt.sender_id → w ≠ pkt.receiver_id →
       (p.handle_cts_received pkt).1.getStation w
         = some { st with nav := max st.nav pkt.duration }) := by
  constructor
  · intro p pkt w st ss rs hs hr hw hw1 hw2
    have hid : st.id = w := getStation_id _ _ _ hw
    have hnav : ((p.mapStations (fun s =>
        if s.id ≠ pkt.sender_id ∧ s.id ≠ pkt.receiver_id then { s with nav := pkt.duration }
        else s)).modifyStation pkt.sender_id (fun s =>
          { s with state := StationState.WAITING_CTS, timeout_timer := TIMEOUT,
                   waiting_for_cts_from := some pkt.receiver_id })).getStation w
        = some { st with nav := pkt.duration } := by
      refine (getStation_modify_ne _ _ _ _ hw1 ?_).trans ?_
      · intro s; rfl
      refine (getStation_mapStations _ _ ?_ _).trans ?_
      · intro s; dsimp only; split <;> rfl
      rw [hw, Option.map_some']
      rw [if_pos ⟨by rw [hid]; exact hw1, by rw [hid]; exact hw2⟩]
    simp only [Protocol.handle_rts_received, hs, hr]
    split
    · exact hnav
    · split
      · rw [getStation_schedule]
        refine (getStation_modify_ne _ _ _ _ hw2 ?_).trans hnav
        intro s; rfl
      · exact hnav
  · intro p pkt w st ss rs hs hr hw hw1 hw2
    have hid : st.id = w := getStation_id _ _ _ hw
    have hnav : ((p.mapStations (fun s =>
        if s.id ≠ pkt.sender_id ∧ s.id ≠ pkt.receiver_id then
          (if s.nav < pkt.duration then { s with nav := pkt.duration } else s)
        else s)).getStation w)
        = some { st with nav := max st.nav pkt.duration } := by
      refine (getStation_mapStations _ _ ?_ _).trans ?_
      · intro s; dsimp only; split
        · split <;> rfl
        · rfl
      rw [hw, Option.map_some']
      rw [if_pos ⟨by rw [hid]; exact hw1, by rw [hid]; exact hw2⟩]
      by_cases hlt : st.nav < pkt.duration
      · rw [if_pos hlt, max_eq_right (le_of_lt hlt)]
      · rw [if_neg hlt, max_eq_left (le_of_not_lt hlt)]
    simp only [Protocol.handle_cts_received, hs, hr]
    split
    · exact hnav
    · split
      · split
        · refine (getStation_modify_ne _ _ _ _ hw2 ?_).trans hnav
          intro s; rfl
        · rw [getStation_schedule]
          refine (getStation_modify_ne _ _ _ _ hw2 ?_).trans hnav
          intro s; rfl
      · exact hnav

theorem nav_update_asymmetry_witness :
    ((Protocol.handle_rts_received
        ⟨[⟨1, StationState.SENDING_RTS, [], none, 0, 0, false, none, none, 0, 0, 0, []⟩,
          ⟨2, StationState.IDLE, [], none, 0, 0, false, none, none, 0, 0, 0, []⟩,
          ⟨3, StationState.IDLE, [], none, 0, 0, false, none, none, 0, 7, 0, []⟩],
         true, none, 0, 0, [], 0, 0, 0, 0, []⟩
        ⟨PacketType.RTS, 1, 2, "", 160, 5⟩).1.getStation 3).map Station.nav = some 160
    ∧ ((Protocol.handle_cts_received
        ⟨[⟨1, StationState.WAITING_CTS, [], none, 0, 0, false, some 2, none, 0, 0, 0, []⟩,
          ⟨2, StationState.RECEIVING, [], none, 0, 0, false, none, some 1, 0, 0, 0, []⟩,
          ⟨3, StationState.IDLE, [], none, 0, 0, false, none, none, 0, 500, 0, []⟩],
         true, none, 0, 0, [], 0, 0, 0, 0, []⟩
        ⟨PacketType.CTS, 2, 1, "", 130, 5⟩).1.getStation 3).map Station.nav = some 500 := by
  constructor
  · rw [nav_update_asymmetry.1 _ _ 3
      ⟨3, StationState.IDLE, [], none, 0, 0, false, none, none, 0, 7, 0, []⟩
      ⟨1, StationState.SENDING_RTS, [], none, 0, 0, false, none, none, 0, 0, 0, []⟩
      ⟨2, StationState.IDLE, [], none, 0, 0, false, none, none, 0, 0, 0, []⟩
      (by decide) (by decide) (by decide) (by decide) (by decide)]
    rfl
  · rw [nav_update_asymmetry.2 _ _ 3
      ⟨3, StationState.IDLE, [], none, 0, 0, false, none, none, 0, 500, 0, []⟩
      ⟨2, StationState.RECEIVING, [], none, 0, 0, false, none, some 1, 0, 0, 0, []⟩
      ⟨1, StationState.WAITING_CTS, [], none, 0, 0, false, some 2, none, 0, 0, 0, []⟩
      (by decide) (by decide) (by decide) (by decide) (by decide)]
    rfl

/-! Claim C9: ACK completion counts success independently of the queue head. -/

theorem handle_ack_received_cases (p : Protocol) (pkt : Packet) (ss st : Station)
    (hs : p.getStation pkt.sender_id = some ss)
    (hr : p.getStation pkt.receiver_id = some st)
    (hwa : st.state = StationState.WAITING_ACK) :
    (p.handle_ack_received pkt).1.successful_transmissions
      = p.successful_transmissions + 1 ∧
    ∃ st', (p.handle_ack_received pkt).1.getStation pkt.receiver_id = some st' ∧
      st'.current_message = none ∧ st'.retry_counter = 0 ∧ st'.has_error = false ∧
      st'.state = StationState.IDLE ∧ st'.timeout_timer = 0 ∧
      st'.transmission_history
        = st.transmission_history ++ [⟨PacketType.DATA, true⟩] ∧
      st'.message_queue = (match st.message_queue with
        | [] => []
        | m0 :: rest => if m0.message_id = pkt.message_id then rest else m0 :: rest) := by
  have hrec : ∀ s : Station,
      ((fun s : Station => s.add_transmission_record PacketType.DATA true) s).id = s.id :=
    fun _ => rfl
  have htm : ∀ s : Station,
      ((fun s : Station => { s with timeout_timer := 0 }) s).id = s.id := fun _ => rfl
  have hpop : ∀ s : Station,
      ((fun s : Station => match s.message_queue with
        | [] => s
        | m0 :: rest =>
          if m0.message_id = pkt.message_id then { s with message_queue := rest } else s) s).id
        = s.id := by
    intro s
    dsimp only
    rcases s with ⟨i, sst, mq, cm, bt, tt, he, wf, rv, rc, nv, dt, th⟩
    cases mq
    · rfl
    · dsimp only
      split <;> rfl
  have hfin : ∀ s : Station,
      ((fun s : Station =>
          { s with current_message := none, state := StationState.IDLE,
                   has_error := false, retry_counter := 0 }) s).id = s.id := fun _ => rfl
  constructor
  · simp only [Protocol.handle_ack_received, hs, hr, if_pos hwa]
    simp
  · simp only [Protocol.handle_ack_received, hs, hr, if_pos hwa]
    rw [getStation_modify_self _ _ _ hfin, getStation_modify_self _ _ _ hpop,
      getStation_modify_self _ _ _ htm, getStation_modify_self _ _ _ hrec,
      getStation_set_successful, hr]
    simp only [Option.map_some']
    refine ⟨_, rfl, rfl, rfl, rfl, rfl, ?_, ?_, ?_⟩
    · dsimp only [Station.add_transmission_record]
      rcases hq : st.message_queue with _ | ⟨m0, rest⟩
      · rfl
      · dsimp only
        split <;> rfl
    · dsimp only [Station.add_transmission_record]
      rcases hq : st.message_queue with _ | ⟨m0, rest⟩
      · rfl
      · dsimp only
        split <;> rfl
    · dsimp only [Station.add_transmission_record]
      rcases hq : st.message_queue with _ | ⟨m0, rest⟩
      · rfl
      · dsimp only
        by_cases hmid : m0.message_id = pkt.message_id
        · simp [hmid]
        · simp [hmid]

/-- C9: when an ACK frame completes and the addressed station is in
WAITING_ACK, `_handle_ack_received` increments `successful_transmissions`,
clears `current_message`, resets `retry_counter`, clears the fault flag,
zeroes the timeout and returns the station to IDLE — regardless of whether the
ACK's `message_id` matches the queue head; the head is popped exactly when the
ids match, so a mismatched message stays queued while the transmission is
still counted as successful. -/
theorem ack_completion_spec (p : Protocol) (pkt : Packet) (ss st : Station)
    (hs : p.getStation pkt.sender_id = some ss)
    (hr : p.getStation pkt.receiver_id = some st)
    (hwa : st.state = StationState.WAITING_ACK) :
    (p.handle_ack_received pkt).1.successful_transmissions
      = p.successful_transmissions + 1 ∧
    ∃ st', (p.handle_ack_received pkt).1.getStation pkt.receiver_id = some st' ∧
      st'.current_message = none ∧ st'.retry_counter = 0 ∧ st'.has_error = false ∧
      st'.state = StationState.IDLE ∧ st'.timeout_timer = 0 ∧
      st'.transmission_history
        = st.transmission_history ++ [⟨PacketType.DATA, true⟩] ∧
      st'.message_queue = (match st.message_queue with
        | [] => []
        | m0 :: rest => if m0.message_id = pkt.message_id then rest else m0 :: rest) :=
  handle_ack_received_cases p pkt ss st hs hr hwa

theorem ack_completion_spec_witness :
    ((Protocol.handle_ack_received
        ⟨[⟨1, StationState.WAITING_ACK, [⟨1, 2, "m", 9⟩], some ⟨1, 2, "m", 9⟩, 0, 50, false,
            none, none, 3, 0, 0, []⟩,
          ⟨2, StationState.IDLE, [], none, 0, 0, false, none, none, 0, 0, 0, []⟩],
         true, none, 0, 0, [], 0, 0, 0, 0, []⟩
        ⟨PacketType.ACK, 2, 1, "", 0, 7⟩).1.getStation 1).map
      (fun s => (s.retry_counter, s.message_queue.length, s.state))
      = some (0, 1, StationState.IDLE) := by
  obtain ⟨-, st', hget, -, hretry, -, hstate, -, -, hqueue⟩ :=
    ack_completion_spec
      ⟨[⟨1, StationState.WAITING_ACK, [⟨1, 2, "m", 9⟩], some ⟨1, 2, "m", 9⟩, 0, 50, false,
          none, none, 3, 0, 0, []⟩,
        ⟨2, StationState.IDLE, [], none, 0, 0, false, none, none, 0, 0, 0, []⟩],
       true, none, 0, 0, [], 0, 0, 0, 0, []⟩
      ⟨PacketType.ACK, 2, 1, "", 0, 7⟩
      ⟨2, StationState.IDLE, [], none, 0, 0, false, none, none, 0, 0, 0, []⟩
      ⟨1, StationState.WAITING_ACK, [⟨1, 2, "m", 9⟩], some ⟨1, 2, "m", 9⟩, 0, 50, false,
        none, none, 3, 0, 0, []⟩
      (by decide) (by decide) (by decide)
  rw [hget, Option.map_some', hretry, hstate, hqueue]
  decide

/-! Claim C10: DATA completion arms the sender's ACK timeout before any
fault/corruption check. -/

/-- C10: when a DATA frame completes (`_handle_data_received`, endpoints
present and distinct), the original sender is always moved to WAITING_ACK with
its timeout timer armed at the full TIMEOUT, before the receiver's fault flag
or the corruption marker is consulted; when the DATA is dropped (fault or
marker) the handler schedules no reply, so the sender stays in WAITING_ACK and
only its later timeout reveals the failure, while the receiver returns to IDLE
and releases its reservation in the same tick and `failed_transmissions` grows
by one. -/
theorem data_completion_spec (p : Protocol) (pkt : Packet) (ss rs : Station)
    (hs : p.getStation pkt.sender_id = some ss)
    (hr : p.getStation pkt.receiver_id = some rs)
    (hne : pkt.sender_id ≠ pkt.receiver_id) :
    (∃ ss', (p.handle_data_received pkt).1.getStation pkt.sender_id = some ss' ∧
       ss'.state = StationState.WAITING_ACK ∧ ss'.timeout_timer = TIMEOUT) ∧
    (rs.has_error = true ∨ containsMarker pkt.data = true →
       (p.handle_data_received pkt).1.current_transmission = p.current_transmission ∧
       (p.handle_data_received pkt).1.failed_transmissions = p.failed_transmissions + 1 ∧
       ∃ rr', (p.handle_data_received pkt).1.getStation pkt.receiver_id = some rr' ∧
         rr'.state = StationState.IDLE ∧ rr'.reserved_for = none) := by
  have hfs : ∀ s : Station, ((fun s : Station =>
      { s with state := StationState.WAITING_ACK, timeout_timer := TIMEOUT }) s).id = s.id :=
    fun _ => rfl
  have hfi : ∀ s : Station, ((fun s : Station =>
      { s with state := StationState.IDLE, reserved_for := none }) s).id = s.id := fun _ => rfl
  have hfr : ∀ s : Station, ((fun s : Station =>
      s.add_transmission_record PacketType.DATA false) s).id = s.id := fun _ => rfl
  have hre : (p.modifyStation pkt.sender_id (fun s =>
      { s with state := StationState.WAITING_ACK, timeout_timer := TIMEOUT })).getStation
      pkt.receiver_id = some rs := by
    rw [getStation_modify_ne _ _ _ _ (Ne.symm hne) hfs]
    exact hr
  by_cases he : rs.has_error = true
  · simp only [Protocol.handle_data_received, hs, hr, hre, if_pos he]
    constructor
    · rw [getStation_modify_self _ _ _ hfr, getStation_set_failed,
        getStation_modify_ne _ _ _ _ hne hfi, getStation_modify_self _ _ _ hfs, hs,
        Option.map_some', Option.map_some']
      exact ⟨_, rfl, rfl, rfl⟩
    · intro _
      refine ⟨by simp, by simp, ?_⟩
      rw [getStation_modify_ne _ _ _ _ (Ne.symm hne) hfr, getStation_set_failed,
        getStation_modify_self _ _ _ hfi, hre, Option.map_some']
      exact ⟨_, rfl, rfl, rfl⟩
  · by_cases hm : containsMarker pkt.data = true
    · simp only [Protocol.handle_data_received, hs, hr, hre, if_neg he, if_pos hm]
      constructor
      · rw [getStation_modify_self _ _ _ hfr, getStation_set_failed,
          getStation_modify_ne _ _ _ _ hne hfi, getStation_modify_self _ _ _ hfs, hs,
          Option.map_some', Option.map_some']
        exact ⟨_, rfl, rfl, rfl⟩
      · intro _
        refine ⟨by simp, by simp, ?_⟩
        rw [getStation_modify_ne _ _ _ _ (Ne.symm hne) hfr, getStation_set_failed,
          getStation_modify_self _ _ _ hfi, hre, Option.map_some']
        exact ⟨_, rfl, rfl, rfl⟩
    · simp only [Protocol.handle_data_received, hs, hr, hre, if_neg he, if_neg hm]
      constructor
      · rw [getStation_modify_ne _ _ _ _ hne hfi, getStation_schedule,
          getStation_modify_self _ _ _ hfs, hs, Option.map_some']
        exact ⟨_, rfl, rfl, rfl⟩
      · intro hdrop
        cases hdrop with
        | inl h => exact absurd h he
        | inr h => exact absurd h hm

theorem data_completion_spec_witness :
    ((Protocol.handle_data_received
        ⟨[⟨1, StationState.SENDING_DATA, [⟨1, 2, "x", 4⟩], some ⟨1, 2, "x", 4⟩, 0, 0, false,
            none, none, 0, 0, 0, []⟩,
          ⟨2, StationState.RECEIVING, [], none, 0, 0, true, none, some 1, 0, 0, 0, []⟩],
         true, some ⟨PacketType.DATA, 1, 2, "x", 0, 4⟩, 0, 0, [], 0, 0, 0, 0, []⟩
        ⟨PacketType.DATA, 1, 2, "x", 0, 4⟩).1.getStation 1).map
        (fun s => (s.state, s.timeout_timer)) = some (StationState.WAITING_ACK, TIMEOUT)
    ∧ (Protocol.handle_data_received
        ⟨[⟨1, StationState.SENDING_DATA, [⟨1, 2, "x", 4⟩], some ⟨1, 2, "x", 4⟩, 0, 0, false,
            none, none, 0, 0, 0, []⟩,
          ⟨2, StationState.RECEIVING, [], none, 0, 0, true, none, some 1, 0, 0, 0, []⟩],
         true, some ⟨PacketType.DATA, 1, 2, "x", 0, 4⟩, 0, 0, [], 0, 0, 0, 0, []⟩
        ⟨PacketType.DATA, 1, 2, "x", 0, 4⟩).1.failed_transmissions = 1 := by
  obtain ⟨⟨ss', hget, hst, htt⟩, hdrop⟩ :=
    data_completion_spec
      ⟨[⟨1, StationState.SENDING_DATA, [⟨1, 2, "x", 4⟩], some ⟨1, 2, "x", 4⟩, 0, 0, false,
          none, none, 0, 0, 0, []⟩,
        ⟨2, StationState.RECEIVING, [], none, 0, 0, true, none, some 1, 0, 0, 0, []⟩],
       true, some ⟨PacketType.DATA, 1, 2, "x", 0, 4⟩, 0, 0, [], 0, 0, 0, 0, []⟩
      ⟨PacketType.DATA, 1, 2, "x", 0, 4⟩
      ⟨1, StationState.SENDING_DATA, [⟨1, 2, "x", 4⟩], some ⟨1, 2, "x", 4⟩, 0, 0, false,
        none, none, 0, 0, 0, []⟩
      ⟨2, StationState.RECEIVING, [], none, 0, 0, true, none, some 1, 0, 0, 0, []⟩
      (by decide) (by decide) (by decide)
  obtain ⟨-, hfail, -⟩ := hdrop (Or.inl rfl)
  refine ⟨?_, by rw [hfail]⟩
  rw [hget, Option.map_some', hst, htt]

/-! Claim C6: timeout handling — permanent failure versus collision-style
retry. -/

theorem handle_timeout_cases (p : Protocol) (sid : Nat) (st : Station) (m : Message)
    (hst : p.getStation sid = some st)
    (hw : st.state = StationState.WAITING_CTS ∨ st.state = StationState.WAITING_ACK)
    (hm : st.current_message = some m)
    (hb : st.backoff_timer = 0) :
    (MAX_RETRIES - 1 ≤ st.retry_counter →
       (p.handle_timeout sid).1.failed_transmissions = p.failed_transmissions + 1 ∧
       ∃ st', (p.handle_timeout sid).1.getStation sid = some st' ∧
         st'.current_message = none ∧ st'.state = StationState.IDLE ∧
         st'.timeout_timer = 0 ∧ st'.waiting_for_cts_from = none ∧
         st'.has_error = false ∧ st'.retry_counter = 0 ∧ st'.backoff_timer = 0 ∧
         st'.message_queue = (match st.message_queue with
           | [] => []
           | m0 :: rest => if m0.message_id = m.message_id then rest else m0 :: rest))
    ∧ (st.retry_counter < MAX_RETRIES - 1 →
       (p.handle_timeout sid).1.failed_transmissions = p.failed_transmissions ∧
       ∃ st', (p.handle_timeout sid).1.getStation sid = some st' ∧
         st'.retry_counter = st.retry_counter + 1 ∧
         st'.state = StationState.BACKOFF ∧ st'.timeout_timer = 0 ∧
         st'.waiting_for_cts_from = none ∧
         ∃ slots, slots < min (CW_MIN * 2 ^ min (st.retry_counter + 1) 5) CW_MAX ∧
           st'.backoff_timer = (slots : Int) * SLOT_TIME) := by
  have hrel : ∀ s : Station, ((fun s : Station =>
      { s with state := StationState.IDLE, reserved_for := none }) s).id = s.id := fun _ => rfl
  have hpop : ∀ s : Station,
      ((fun s : Station => match s.message_queue with
        | [] => s
        | m0 :: rest =>
          if m0.message_id = m.message_id then { s with message_queue := rest } else s) s).id
        = s.id := by
    intro s
    dsimp only
    rcases s with ⟨i, sst, mq, cm, bt, tt, he, wf, rv, rc, nv, dt, th⟩
    cases mq
    · rfl
    · dsimp only
      split <;> rfl
  have hpop_b : ∀ s : Station,
      ((fun s : Station => match s.message_queue with
        | [] => s
        | m0 :: rest =>
          if m0.message_id = m.message_id then { s with message_queue := rest } else s) s).backoff_timer
        = s.backoff_timer := by
    intro s
    dsimp only
    rcases s with ⟨i, sst, mq, cm, bt, tt, he, wf, rv, rc, nv, dt, th⟩
    cases mq
    · rfl
    · dsimp only
      split <;> rfl
  have hpop_q : ∀ s : Station,
      ((fun s : Station => match s.message_queue with
        | [] => s
        | m0 :: rest =>
          if m0.message_id = m.message_id then { s with message_queue := rest } else s) s).message_queue
        = (match s.message_queue with
           | [] => ([] : List Message)
           | m0 :: rest => if m0.message_id = m.message_id then rest else m0 :: rest) := by
    intro s
    dsimp only
    rcases s with ⟨i, sst, mq, cm, bt, tt, he, wf, rv, rc, nv, dt, th⟩
    cases mq
    · rfl
    · dsimp only
      split <;> rfl
  have hfin : ∀ s : Station, ((fun s : Station =>
      { s with current_message := none, state := StationState.IDLE,
               timeout_timer := 0, waiting_for_cts_from := none,
               has_error := false, retry_counter := 0 }) s).id = s.id := fun _ => rfl
  have hbr : ∀ ev : Nat → Event, ∃ (q : Protocol) (evs : List Event) (st1 : Station),
      (if (m.receiver_id != 0) = true then
        match p.getStation m.receiver_id with
        | some ir =>
          if ir.reserved_for = some sid then
            (p.modifyStation m.receiver_id (fun s =>
               { s with state := StationState.IDLE, reserved_for := none }),
             [ev m.receiver_id])
          else (p, [])
        | none => (p, [])
      else (p, [])) = (q, evs) ∧
      q.getStation sid = some st1 ∧
      st1.backoff_timer = st.backoff_timer ∧
      st1.message_queue = st.message_queue ∧
      st1.retry_counter = st.retry_counter ∧
      q.failed_transmissions = p.failed_transmissions := by
    intro ev
    by_cases htr : (m.receiver_id != 0) = true
    · rw [if_pos htr]
      cases hir : p.getStation m.receiver_id with
      | none => exact ⟨p, [], st, rfl, hst, rfl, rfl, rfl, rfl⟩
      | some ir =>
        dsimp only
        by_cases hres : ir.reserved_for = some sid
        · rw [if_pos hres]
          by_cases hrs : m.receiver_id = sid
          · subst hrs
            refine ⟨_, _, { st with state := StationState.IDLE, reserved_for := none },
              rfl, ?_, rfl, rfl, rfl, by simp⟩
            rw [getStation_modify_self _ _ _ hrel, hst, Option.map_some']
          · refine ⟨_, _, st, rfl, ?_, rfl, rfl, rfl, by simp⟩
            rw [getStation_modify_ne _ _ _ _ ?_ hrel]
            · exact hst
            · omega
        · rw [if_neg hres]
          exact ⟨p, [], st, rfl, hst, rfl, rfl, rfl, rfl⟩
    · rw [if_neg htr]
      exact ⟨p, [], st, rfl, hst, rfl, rfl, rfl, rfl⟩
  constructor
  · intro hge
    obtain ⟨q, evs, st1, hqeq, hq, hqb, hqq, hqr, hqf⟩ := hbr Event.receiverResetAfterFail
    rcases hw with hstate | hstate <;>
      simp only [Protocol.handle_timeout, hst, hstate, hm, truthyId, if_pos hge, hqeq] <;>
      refine ⟨by simp [hqf], ?_⟩ <;>
      rw [getStation_modify_self _ _ _ hfin, getStation_modify_self _ _ _ hpop,
        getStation_set_failed, hq, Option.map_some', Option.map_some'] <;>
      exact ⟨_, rfl, rfl, rfl, rfl, rfl, rfl, rfl,
        (hpop_b st1).trans (hqb.trans hb), (hpop_q st1).trans (by rw [hqq])⟩
  · intro hlt
    obtain ⟨q, evs, st1, hqeq, hq, hqb, hqq, hqr, hqf⟩ := hbr Event.receiverResetAfterTimeout
    have hnge : ¬ (MAX_RETRIES - 1 ≤ st.retry_counter) := by omega
    obtain ⟨slots, hslt, hgs⟩ := enter_backoff_getStation_self q sid true st1 hq
    have hgs' : (q.enter_backoff sid true).1.getStation sid = some
        { st1 with retry_counter := st.retry_counter + 1,
                   backoff_timer := (slots : Int) * SLOT_TIME,
                   state := StationState.BACKOFF, timeout_timer := 0,
                   waiting_for_cts_from := none } := by
      simpa [hqr] using hgs
    have hslt' : slots < min (CW_MIN * 2 ^ min (st.retry_counter + 1) 5) CW_MAX := by
      simpa [hqr] using hslt
    rcases hw with hstate | hstate <;>
      simp only [Protocol.handle_timeout, hst, hstate, hm, truthyId, if_neg hnge, hqeq] <;>
      exact ⟨by simp [hqf], _, hgs', rfl, rfl, rfl, rfl, slots, hslt', rfl⟩

/-- C6: when a station in WAITING_CTS or WAITING_ACK (with a current message
and, as at every real call site, a zero backoff timer) has its timeout fire,
`_handle_timeout` permanently fails the message if
`retry_counter ≥ MAX_RETRIES − 1`: `failed_transmissions` grows by one, the
head of the queue is popped exactly when its id matches, `current_message`,
fault, waiting and timeout state are cleared, `retry_counter` resets to 0 and
the station returns to IDLE with its backoff timer still clear; otherwise the
timeout is a collision-style retry: `retry_counter` grows by one and a fresh
backoff is drawn from the contention window enlarged for the new retry count,
with the station in BACKOFF. -/
theorem timeout_handling_spec (p : Protocol) (sid : Nat) (st : Station) (m : Message)
    (hst : p.getStation sid = some st)
    (hw : st.state = StationState.WAITING_CTS ∨ st.state = StationState.WAITING_ACK)
    (hm : st.current_message = some m)
    (hb : st.backoff_timer = 0) :
    (MAX_RETRIES - 1 ≤ st.retry_counter →
       (p.handle_timeout sid).1.failed_transmissions = p.failed_transmissions + 1 ∧
       ∃ st', (p.handle_timeout sid).1.getStation sid = some st' ∧
         st'.current_message = none ∧ st'.state = StationState.IDLE ∧
         st'.timeout_timer = 0 ∧ st'.waiting_for_cts_from = none ∧
         st'.has_error = false ∧ st'.retry_counter = 0 ∧ st'.backoff_timer = 0 ∧
         st'.message_queue = (match st.message_queue with
           | [] => []
           | m0 :: rest => if m0.message_id = m.message_id then rest else m0 :: rest))
    ∧ (st.retry_counter < MAX_RETRIES - 1 →
       (p.handle_timeout sid).1.failed_transmissions = p.failed_transmissions ∧
       ∃ st', (p.handle_timeout sid).1.getStation sid = some st' ∧
         st'.retry_counter = st.retry_counter + 1 ∧
         st'.state = StationState.BACKOFF ∧ st'.timeout_timer = 0 ∧
         st'.waiting_for_cts_from = none ∧
         ∃ slots, slots < min (CW_MIN * 2 ^ min (st.retry_counter + 1) 5) CW_MAX ∧
           st'.backoff_timer = (slots : Int) * SLOT_TIME) :=
  handle_timeout_cases p sid st m hst hw hm hb

theorem timeout_handling_spec_witness :
    (Protocol.handle_timeout
        ⟨[⟨1, StationState.WAITING_ACK, [⟨1, 2, "z", 5⟩], some ⟨1, 2, "z", 5⟩, 0, 0, false,
            none, none, 9, 0, 0, []⟩,
          ⟨2, StationState.RECEIVING, [], none, 0, 0, false, none, some 1, 0, 0, 0, []⟩],
         false, none, 0, 0, [], 0, 0, 0, 0, [0, 0, 0]⟩ 1).1.failed_transmissions = 1 ∧
    ((Protocol.handle_timeout
        ⟨[⟨1, StationState.WAITING_ACK, [⟨1, 2, "z", 5⟩], some ⟨1, 2, "z", 5⟩, 0, 0, false,
            none, none, 9, 0, 0, []⟩,
          ⟨2, StationState.RECEIVING, [], none, 0, 0, false, none, some 1, 0, 0, 0, []⟩],
         false, none, 0, 0, [], 0, 0, 0, 0, [0, 0, 0]⟩ 1).1.getStation 1).map
      (fun s => (s.retry_counter, s.state, s.message_queue.length))
      = some (0, StationState.IDLE, 0) := by
  obtain ⟨h1, -⟩ := timeout_handling_spec
    ⟨[⟨1, StationState.WAITING_ACK, [⟨1, 2, "z", 5⟩], some ⟨1, 2, "z", 5⟩, 0, 0, false,
        none, none, 9, 0, 0, []⟩,
      ⟨2, StationState.RECEIVING, [], none, 0, 0, false, none, some 1, 0, 0, 0, []⟩],
     false, none, 0, 0, [], 0, 0, 0, 0, [0, 0, 0]⟩ 1
    ⟨1, StationState.WAITING_ACK, [⟨1, 2, "z", 5⟩], some ⟨1, 2, "z", 5⟩, 0, 0, false,
      none, none, 9, 0, 0, []⟩ ⟨1, 2, "z", 5⟩
    (by decide) (Or.inr rfl) rfl rfl
  obtain ⟨hfail, st', hget, -, hstate, -, -, -, hretry, -, hqueue⟩ := h1 (by decide)
  refine ⟨by rw [hfail], ?_⟩
  rw [hget, Option.map_some', hretry, hstate, hqueue]
  rfl

/-! Claim C1: contention resolution — one global collision, one retry each. -/

theorem collideOne_getStation_ne (acc : Protocol × List Event) (w w' : Nat) (h : w' ≠ w) :
    (collideOne acc w).1.getStation w' = acc.1.getStation w' := by
  unfold collideOne
  refine (enter_backoff_getStation_ne _ _ _ _ h).trans ?_
  exact getStation_modify_ne _ _ _ _ h (fun _ => rfl)

theorem collideFold_getStation_ne (ws : List Nat) (acc : Protocol × List Event) (w : Nat)
    (h : w ∉ ws) :
    (ws.foldl collideOne acc).1.getStation w = acc.1.getStation w := by
  induction ws generalizing acc with
  | nil => rfl
  | cons a t ih =>
    rw [List.foldl_cons, ih _ (fun hmem => h (List.mem_cons_of_mem a hmem))]
    exact collideOne_getStation_ne acc a w (fun hw => h (hw ▸ List.mem_cons_self a t))

theorem collideOne_getStation_self (acc : Protocol × List Event) (w : Nat) (s : Station)
    (h : acc.1.getStation w = some s) :
    ∃ s', (collideOne acc w).1.getStation w = some s' ∧
      s'.retry_counter = s.retry_counter + 1 ∧ s'.state = StationState.BACKOFF ∧
      ∃ slots, slots < min (CW_MIN * 2 ^ min (s.retry_counter + 1) 5) CW_MAX ∧
        s'.backoff_timer = (slots : Int) * SLOT_TIME := by
  unfold collideOne
  have hfr : ∀ s : Station,
      ((fun s : Station => s.add_transmission_record PacketType.RTS false) s).id = s.id :=
    fun _ => rfl
  have h1 : (acc.1.modifyStation w (fun s =>
      s.add_transmission_record PacketType.RTS false)).getStation w
      = some (s.add_transmission_record PacketType.RTS false) := by
    rw [getStation_modify_self _ _ _ hfr, h, Option.map_some']
  obtain ⟨slots, hlt, hgs⟩ := enter_backoff_getStation_self _ w true _ h1
  refine ⟨_, hgs, rfl, rfl, slots, ?_, rfl⟩
  simpa [Station.add_transmission_record] using hlt

theorem collideFold_getStation_self (ws : List Nat) (acc : Protocol × List Event) (w : Nat)
    (s : Station) (hnd : ws.Nodup) (hw : w ∈ ws) (h : acc.1.getStation w = some s) :
    ∃ s', (ws.foldl collideOne acc).1.getStation w = some s' ∧
      s'.retry_counter = s.retry_counter + 1 ∧ s'.state = StationState.BACKOFF ∧
      ∃ slots, slots < min (CW_MIN * 2 ^ min (s.retry_counter + 1) 5) CW_MAX ∧
        s'.backoff_timer = (slots : Int) * SLOT_TIME := by
  induction ws generalizing acc with
  | nil => cases hw
  | cons a t ih =>
    rw [List.foldl_cons]
    rcases List.mem_cons.mp hw with rfl | hwt
    · obtain ⟨s', hgs, hretry, hstate, slots, hlt, hbt⟩ :=
        collideOne_getStation_self acc w s h
      refine ⟨s', ?_, hretry, hstate, slots, hlt, hbt⟩
      rw [collideFold_getStation_ne t _ w (List.nodup_cons.mp hnd).1]
      exact hgs
    · refine ih _ (List.nodup_cons.mp hnd).2 hwt ?_
      rw [collideOne_getStation_ne acc a w ?_]
      · exact h
      · rintro rfl
        exact (List.nodup_cons.mp hnd).1 hwt

theorem collideOne_total (acc : Protocol × List Event) (w : Nat) :
    (collideOne acc w).1.total_collisions = acc.1.total_collisions := by
  unfold collideOne
  simp

theorem collideFold_total (ws : List Nat) (acc : Protocol × List Event) :
    (ws.foldl collideOne acc).1.total_collisions = acc.1.total_collisions := by
  induction ws generalizing acc with
  | nil => rfl
  | cons a t ih => rw [List.foldl_cons, ih, collideOne_total]

theorem send_rts_total (p : Protocol) (sid : Nat) :
    (p.send_rts sid).1.total_collisions = p.total_collisions := by
  cases hs : p.getStation sid with
  | none => simp only [Protocol.send_rts, hs]
  | some st =>
    cases hm : st.current_message with
    | none => simp only [Protocol.send_rts, hs, hm]
    | some m =>
      simp only [Protocol.send_rts, hs, hm]
      simp

/-- C1: if the channel is idle and two or more distinct stations win
contention on the same tick, `_handle_contention_resolution` declares exactly
one collision — `total_collisions` grows by exactly 1 regardless of the number
of winners — and every present winner has its `retry_counter` incremented by
exactly 1 and a fresh backoff drawn from the contention window enlarged for
its new retry count; with exactly one winner no collision is counted and the
winner proceeds to SENDING_RTS. -/
theorem contention_resolution_spec (p : Protocol) (winners : List Nat)
    (hbusy : p.channel_busy = false) (hnd : winners.Nodup) :
    (2 ≤ winners.length →
      (p.handle_contention_resolution winners).1.total_collisions = p.total_collisions + 1 ∧
      ∀ w st, w ∈ winners → p.getStation w = some st →
        ∃ st', (p.handle_contention_resolution winners).1.getStation w = some st' ∧
          st'.retry_counter = st.retry_counter + 1 ∧
          st'.state = StationState.BACKOFF ∧
          ∃ slots, slots < min (CW_MIN * 2 ^ min (st.retry_counter + 1) 5) CW_MAX ∧
            st'.backoff_timer = (slots : Int) * SLOT_TIME)
    ∧ (∀ w st m, winners = [w] → p.getStation w = some st → st.current_message = some m →
        (p.handle_contention_resolution winners).1.total_collisions = p.total_collisions ∧
        ∃ st', (p.handle_contention_resolution winners).1.getStation w = some st' ∧
          st'.state = StationState.SENDING_RTS) := by
  have hidle : p.is_channel_idle = true := by
    simp [Protocol.is_channel_idle, hbusy]
  constructor
  · intro h2len
    rcases winners with _ | ⟨a, _ | ⟨b, t⟩⟩
    · simp at h2len
    · simp at h2len
    · simp only [Protocol.handle_contention_resolution, if_pos hidle]
      constructor
      · rw [collideFold_total]
      · intro w st hw hst
        obtain ⟨st', hgs, hretry, hstate, slots, hlt, hbt⟩ :=
          collideFold_getStation_self (a :: b :: t)
            ({ p with last_collision_stations := a :: b :: t,
                      total_collisions := p.total_collisions + 1 }, ([] : List Event))
            w st hnd hw hst
        exact ⟨st', hgs, hretry, hstate, slots, hlt, hbt⟩
  · rintro w st m rfl hst hm
    have hfsend : ∀ s : Station,
        ((fun s : Station => { s with state := StationState.SENDING_RTS }) s).id = s.id :=
      fun _ => rfl
    simp only [Protocol.handle_contention_resolution, if_pos hidle]
    refine ⟨send_rts_total p w, ?_⟩
    simp only [Protocol.send_rts, hst, hm]
    rw [getStation_schedule, getStation_modify_self _ _ _ hfsend, hst, Option.map_some']
    exact ⟨_, rfl, rfl⟩

theorem contention_resolution_spec_witness :
    (Protocol.handle_contention_resolution
        ⟨[⟨1, StationState.BACKOFF, [⟨1, 2, "a", 1⟩], some ⟨1, 2, "a", 1⟩, 0, 0, false,
            none, none, 0, 0, 0, []⟩,
          ⟨2, StationState.BACKOFF, [⟨2, 1, "b", 2⟩], some ⟨2, 1, "b", 2⟩, 0, 0, false,
            none, none, 4, 0, 0, []⟩],
         false, none, 0, 0, [], 7, 0, 0, 0, [0, 0]⟩ [1, 2]).1.total_collisions = 8 ∧
    ((Protocol.handle_contention_resolution
        ⟨[⟨1, StationState.BACKOFF, [⟨1, 2, "a", 1⟩], some ⟨1, 2, "a", 1⟩, 0, 0, false,
            none, none, 0, 0, 0, []⟩,
          ⟨2, StationState.BACKOFF, [⟨2, 1, "b", 2⟩], some ⟨2, 1, "b", 2⟩, 0, 0, false,
            none, none, 4, 0, 0, []⟩],
         false, none, 0, 0, [], 7, 0, 0, 0, [0, 0]⟩ [1, 2]).1.getStation 2).map
      (fun s => (s.retry_counter, s.state)) = some (5, StationState.BACKOFF) := by
  obtain ⟨hcoll, -⟩ := contention_resolution_spec
    ⟨[⟨1, StationState.BACKOFF, [⟨1, 2, "a", 1⟩], some ⟨1, 2, "a", 1⟩, 0, 0, false,
        none, none, 0, 0, 0, []⟩,
      ⟨2, StationState.BACKOFF, [⟨2, 1, "b", 2⟩], some ⟨2, 1, "b", 2⟩, 0, 0, false,
        none, none, 4, 0, 0, []⟩],
     false, none, 0, 0, [], 7, 0, 0, 0, [0, 0]⟩ [1, 2] rfl (by decide)
  obtain ⟨htot, hper⟩ := hcoll (by decide)
  obtain ⟨st', hgs, hretry, hstate, -⟩ := hper 2
    ⟨2, StationState.BACKOFF, [⟨2, 1, "b", 2⟩], some ⟨2, 1, "b", 2⟩, 0, 0, false,
      none, none, 4, 0, 0, []⟩ (by decide) (by decide)
  refine ⟨by rw [htot], ?_⟩
  rw [hgs, Option.map_some', hretry, hstate]

/-! Claim C5: the channel-busy flag tracks the in-flight frame. -/

/-- The invariant `channel_busy == (in_flight present)`. -/
def ChannelInv (p : Protocol) : Prop :=
  p.channel_busy = p.current_transmission.isSome

/-- Each completion handler either leaves the channel state untouched or
schedules a reply, setting `channel_busy` with a present transmission. -/
theorem handle_rts_received_channel (p : Protocol) (pkt : Packet) :
    ((p.handle_rts_received pkt).1.current_transmission = p.current_transmission ∧
     (p.handle_rts_received pkt).1.channel_busy = p.channel_busy) ∨
    ((p.handle_rts_received pkt).1.channel_busy = true ∧
     ((p.handle_rts_received pkt).1.current_transmission).isSome = true) := by
  cases hs : p.getStation pkt.sender_id with
  | none => left; exact ⟨by simp [Protocol.handle_rts_received, hs], by
      simp [Protocol.handle_rts_received, hs]⟩
  | some ss =>
    cases hr : p.getStation pkt.receiver_id with
    | none => left; exact ⟨by simp [Protocol.handle_rts_received, hs, hr], by
        simp [Protocol.handle_rts_received, hs, hr]⟩
    | some rs =>
      simp only [Protocol.handle_rts_received, hs, hr]
      split
      · left; exact ⟨by simp, by simp⟩
      · split
        · right; exact ⟨rfl, rfl⟩
        · left; exact ⟨by simp, by simp⟩

theorem handle_cts_received_channel (p : Protocol) (pkt : Packet) :
    ((p.handle_cts_received pkt).1.current_transmission = p.current_transmission ∧
     (p.handle_cts_received pkt).1.channel_busy = p.channel_busy) ∨
    ((p.handle_cts_received pkt).1.channel_busy = true ∧
     ((p.handle_cts_received pkt).1.current_transmission).isSome = true) := by
  cases hs : p.getStation pkt.sender_id with
  | none => left; exact ⟨by simp [Protocol.handle_cts_received, hs], by
      simp [Protocol.handle_cts_received, hs]⟩
  | some ss =>
    cases hr : p.getStation pkt.receiver_id with
    | none => left; exact ⟨by simp [Protocol.handle_cts_received, hs, hr], by
        simp [Protocol.handle_cts_received, hs, hr]⟩
    | some rs =>
      simp only [Protocol.handle_cts_received, hs, hr]
      split
      · left; exact ⟨by simp, by simp⟩
      · split
        · split
          · left; exact ⟨by simp, by simp⟩
          · right; exact ⟨rfl, rfl⟩
        · left; exact ⟨by simp, by simp⟩

theorem handle_data_received_channel (p : Protocol) (pkt : Packet) :
    ((p.handle_data_received pkt).1.current_transmission = p.current_transmission ∧
     (p.handle_data_received pkt).1.channel_busy = p.channel_busy) ∨
    ((p.handle_data_received pkt).1.channel_busy = true ∧
     ((p.handle_data_received pkt).1.current_transmission).isSome = true) := by
  cases hs : p.getStation pkt.sender_id with
  | none => left; exact ⟨by simp [Protocol.handle_data_received, hs], by
      simp [Protocol.handle_data_received, hs]⟩
  | some ss =>
    cases hr : p.getStation pkt.receiver_id with
    | none => left; exact ⟨by simp [Protocol.handle_data_received, hs, hr], by
        simp [Protocol.handle_data_received, hs, hr]⟩
    | some rs =>
      simp only [Protocol.handle_data_received, hs, hr]
      split
      · left; exact ⟨by simp, by simp⟩
      · split
        · left; exact ⟨by simp, by simp⟩
        · split
          · left; exact ⟨by simp, by simp⟩
          · right; exact ⟨by simp, by simp⟩

theorem handle_ack_received_channel (p : Protocol) (pkt : Packet) :
    ((p.handle_ack_received pkt).1.current_transmission = p.current_transmission ∧
     (p.handle_ack_received pkt).1.channel_busy = p.channel_busy) ∨
    ((p.handle_ack_received pkt).1.channel_busy = true ∧
     ((p.handle_ack_received pkt).1.current_transmission).isSome = true) := by
  cases hs : p.getStation pkt.sender_id with
  | none => left; exact ⟨by simp [Protocol.handle_ack_received, hs], by
      simp [Protocol.handle_ack_received, hs]⟩
  | some ss =>
    cases hr : p.getStation pkt.receiver_id with
    | none => left; exact ⟨by simp [Protocol.handle_ack_received, hs, hr], by
        simp [Protocol.handle_ack_received, hs, hr]⟩
    | some rs =>
      simp only [Protocol.handle_ack_received, hs, hr]
      split
      · left; exact ⟨by simp, by simp⟩
      · left; exact ⟨by simp, by simp⟩

/-- `_complete_transmission` always re-establishes the channel invariant. -/
theorem complete_transmission_ChannelInv (p : Protocol) :
    ChannelInv (p.complete_transmission).1 := by
  unfold ChannelInv Protocol.complete_transmission
  cases hc : p.current_transmission with
  | none => rfl
  | some pkt =>
    dsimp only
    have main : ∀ X : Protocol × List Event,
        (X.1.current_transmission = p.current_transmission ∧
          X.1.channel_busy = p.channel_busy) ∨
        (X.1.channel_busy = true ∧ (X.1.current_transmission).isSome = true) →
        ((if X.1.current_transmission = some pkt then
            ({ X.1 with current_transmission := none, channel_busy := false }, X.2)
          else X).1.channel_busy
          = ((if X.1.current_transmission = some pkt then
              ({ X.1 with current_transmission := none, channel_busy := false }, X.2)
            else X).1.current_transmission).isSome) := by
      rintro ⟨q, evs⟩ hq
      by_cases heq : q.current_transmission = some pkt
      · simp [heq]
      · simp only [if_neg heq]
        rcases hq with ⟨h1, h2⟩ | ⟨h1, h2⟩
        · exact absurd (h1.trans hc) heq
        · rw [h1, h2]
    cases hpt : pkt.packet_type
    · exact main (p.handle_rts_received pkt) (handle_rts_received_channel p pkt)
    · exact main (p.handle_cts_received pkt) (handle_cts_received_channel p pkt)
    · exact main (p.handle_data_received pkt) (handle_data_received_channel p pkt)
    · exact main (p.handle_ack_received pkt) (handle_ack_received_channel p pkt)

/-! Channel-frame lemmas: the station loop never touches the channel. -/

@[simp] theorem start_initial_backoff_channel_busy (p : Protocol) (sid : Nat) :
    (p.start_initial_backoff sid).1.channel_busy = p.channel_busy := rfl

@[simp] theorem start_initial_backoff_current (p : Protocol) (sid : Nat) :
    (p.start_initial_backoff sid).1.current_transmission = p.current_transmission := rfl

@[simp] theorem initiate_transmission_channel_busy (p : Protocol) (sid : Nat) :
    (p.initiate_transmission sid).1.channel_busy = p.channel_busy := by
  cases hs : p.getStation sid with
  | none => simp [Protocol.initiate_transmission, hs]
  | some st =>
    cases hq : st.message_queue with
    | nil => simp [Protocol.initiate_transmission, hs, hq]
    | cons m rest => simp [Protocol.initiate_transmission, hs, hq]

@[simp] theorem initiate_transmission_current (p : Protocol) (sid : Nat) :
    (p.initiate_transmission sid).1.current_transmission = p.current_transmission := by
  cases hs : p.getStation sid with
  | none => simp [Protocol.initiate_transmission, hs]
  | some st =>
    cases hq : st.message_queue with
    | nil => simp [Protocol.initiate_transmission, hs, hq]
    | cons m rest => simp [Protocol.initiate_transmission, hs, hq]

theorem handle_timeout_channel (p : Protocol) (sid : Nat) :
    (p.handle_timeout sid).1.channel_busy = p.channel_busy ∧
    (p.handle_timeout sid).1.current_transmission = p.current_transmission := by
  cases hst : p.getStation sid with
  | none => exact ⟨by simp [Protocol.handle_timeout, hst], by
      simp [Protocol.handle_timeout, hst]⟩
  | some st =>
    simp only [Protocol.handle_timeout, hst]
    constructor <;> (repeat' split) <;> simp

theorem timeout_tick_channel (p : Protocol) (sid : Nat) :
    (p.timeout_tick sid).1.channel_busy = p.channel_busy ∧
    (p.timeout_tick sid).1.current_transmission = p.current_transmission := by
  cases hst : p.getStation sid with
  | none => exact ⟨by simp [Protocol.timeout_tick, hst], by simp [Protocol.timeout_tick, hst]⟩
  | some st =>
    simp only [Protocol.timeout_tick, hst]
    split
    · split
      · obtain ⟨q, e, hqe⟩ : ∃ q e,
            (p.modifyStation sid (fun s =>
              { s with timeout_timer := s.timeout_timer - 1 })).handle_timeout sid = (q, e) :=
          ⟨_, _, rfl⟩
        have hc := handle_timeout_channel
          (p.modifyStation sid (fun s => { s with timeout_timer := s.timeout_timer - 1 })) sid
        rw [hqe] at hc
        rw [hqe]
        exact ⟨hc.1, hc.2⟩
      · exact ⟨rfl, rfl⟩
    · exact ⟨rfl, rfl⟩

theorem station_tick_channel (p : Protocol) (w : List Nat) (sid : Nat) :
    (p.station_tick w sid).1.channel_busy = p.channel_busy ∧
    (p.station_tick w sid).1.current_transmission = p.current_transmission := by
  obtain ⟨q, e, hqe⟩ : ∃ q e, p.timeout_tick sid = (q, e) := ⟨_, _, rfl⟩
  have hq := timeout_tick_channel p sid
  rw [hqe] at hq
  unfold Protocol.station_tick
  rw [hqe]
  dsimp only
  cases hgs : q.getStation sid with
  | none => exact hq
  | some st =>
    dsimp only
    split
    · -- SENSING arm
      split
      · split
        · obtain ⟨q2, e2, hqe2⟩ : ∃ q2 e2,
              (q.modifyStation sid (fun s =>
                { s with difs_timer := s.difs_timer - 1 })).start_initial_backoff sid
                = (q2, e2) := ⟨_, _, rfl⟩
          have h2 := start_initial_backoff_channel_busy
            (q.modifyStation sid (fun s => { s with difs_timer := s.difs_timer - 1 })) sid
          have h3 := start_initial_backoff_current
            (q.modifyStation sid (fun s => { s with difs_timer := s.difs_timer - 1 })) sid
          rw [hqe2] at h2 h3
          rw [hqe2]
          exact ⟨h2.trans hq.1, h3.trans hq.2⟩
        · exact ⟨hq.1, hq.2⟩
      · exact ⟨hq.1, hq.2⟩
    · -- BACKOFF arm
      split
      · exact hq
      · split
        · split
          · exact ⟨hq.1, hq.2⟩
          · exact ⟨hq.1, hq.2⟩
        · exact hq
    · -- IDLE arm
      split
      · split
        · obtain ⟨q2, e2, hqe2⟩ : ∃ q2 e2, q.initiate_transmission sid = (q2, e2) :=
            ⟨_, _, rfl⟩
          have h2 := initiate_transmission_channel_busy q sid
          have h3 := initiate_transmission_current q sid
          rw [hqe2] at h2 h3
          rw [hqe2]
          exact ⟨h2.trans hq.1, h3.trans hq.2⟩
        · exact hq
      · exact hq
    · -- remaining states
      exact hq

theorem station_loop_channel (p : Protocol) (ids : List Nat) :
    (p.station_loop ids).1.channel_busy = p.channel_busy ∧
    (p.station_loop ids).1.current_transmission = p.current_transmission := by
  suffices h : ∀ acc : Protocol × List Nat × List Event,
      (ids.foldl (fun acc sid =>
        let (p, w, e) := acc.1.station_tick acc.2.1 sid
        (p, w, acc.2.2 ++ e)) acc).1.channel_busy = acc.1.channel_busy ∧
      (ids.foldl (fun acc sid =>
        let (p, w, e) := acc.1.station_tick acc.2.1 sid
        (p, w, acc.2.2 ++ e)) acc).1.current_transmission = acc.1.current_transmission by
    exact h (p, [], [])
  induction ids with
  | nil => exact fun acc => ⟨rfl, rfl⟩
  | cons a t ih =>
    intro acc
    rw [List.foldl_cons]
    obtain ⟨q, w, e, hqe⟩ : ∃ q w e, acc.1.station_tick acc.2.1 a = (q, w, e) :=
      ⟨_, _, _, rfl⟩
    have hc := station_tick_channel acc.1 acc.2.1 a
    rw [hqe] at hc
    refine ⟨?_, ?_⟩
    · refine ((ih _).1.trans ?_)
      rw [hqe]
      exact hc.1
    · refine ((ih _).2.trans ?_)
      rw [hqe]
      exact hc.2

theorem collideOne_channel (acc : Protocol × List Event) (w : Nat) :
    (collideOne acc w).1.channel_busy = acc.1.channel_busy ∧
    (collideOne acc w).1.current_transmission = acc.1.current_transmission := by
  unfold collideOne
  exact ⟨by simp, by simp⟩

theorem collideFold_channel (ws : List Nat) (acc : Protocol × List Event) :
    (ws.foldl collideOne acc).1.channel_busy = acc.1.channel_busy ∧
    (ws.foldl collideOne acc).1.current_transmission = acc.1.current_transmission := by
  induction ws generalizing acc with
  | nil => exact ⟨rfl, rfl⟩
  | cons a t ih =>
    rw [List.foldl_cons]
    exact ⟨(ih _).1.trans (collideOne_channel acc a).1,
           (ih _).2.trans (collideOne_channel acc a).2⟩

theorem busyRedrawOne_channel (acc : Protocol × List Event) (w : Nat) :
    (busyRedrawOne acc w).1.channel_busy = acc.1.channel_busy ∧
    (busyRedrawOne acc w).1.current_transmission = acc.1.current_transmission := by
  unfold busyRedrawOne
  exact ⟨by simp, by simp⟩

theorem busyRedrawFold_channel (ws : List Nat) (acc : Protocol × List Event) :
    (ws.foldl busyRedrawOne acc).1.channel_busy = acc.1.channel_busy ∧
    (ws.foldl busyRedrawOne acc).1.current_transmission = acc.1.current_transmission := by
  induction ws generalizing acc with
  | nil => exact ⟨rfl, rfl⟩
  | cons a t ih =>
    rw [List.foldl_cons]
    exact ⟨(ih _).1.trans (busyRedrawOne_channel acc a).1,
           (ih _).2.trans (busyRedrawOne_channel acc a).2⟩

theorem send_rts_ChannelInv (p : Protocol) (sid : Nat) (h : ChannelInv p) :
    ChannelInv (p.send_rts sid).1 := by
  cases hs : p.getStation sid with
  | none =>
    unfold ChannelInv
    rw [show (p.send_rts sid).1 = p by simp [Protocol.send_rts, hs]]
    exact h
  | some st =>
    cases hm : st.current_message with
    | none =>
      unfold ChannelInv
      rw [show (p.send_rts sid).1 = p by simp [Protocol.send_rts, hs, hm]]
      exact h
    | some msg =>
      simp only [Protocol.send_rts, hs, hm]
      rfl

theorem resolution_ChannelInv (p : Protocol) (ws : List Nat) (h : ChannelInv p) :
    ChannelInv (p.handle_contention_resolution ws).1 := by
  unfold Protocol.handle_contention_resolution
  split
  · split
    · exact send_rts_ChannelInv p _ h
    · dsimp only
      obtain ⟨q, e, hqe⟩ : ∃ q e, ws.foldl collideOne
          ({ p with last_collision_stations := ws,
                    total_collisions := p.total_collisions + 1 }, ([] : List Event)) = (q, e) :=
        ⟨_, _, rfl⟩
      have hfr := collideFold_channel ws
        ({ p with last_collision_stations := ws,
                  total_collisions := p.total_collisions + 1 }, ([] : List Event))
      rw [hqe] at hfr
      rw [hqe]
      unfold ChannelInv
      dsimp only at hfr ⊢
      rw [hfr.1, hfr.2]
      exact h
  · dsimp only
    obtain ⟨q, e, hqe⟩ : ∃ q e, ws.foldl busyRedrawOne (p, ([] : List Event)) = (q, e) :=
      ⟨_, _, rfl⟩
    have hfr := busyRedrawFold_channel ws (p, ([] : List Event))
    rw [hqe] at hfr
    rw [hqe]
    unfold ChannelInv
    dsimp only at hfr ⊢
    rw [hfr.1, hfr.2]
    exact h

theorem begin_step_ChannelInv (p : Protocol) (h : ChannelInv p) :
    ChannelInv p.begin_step := by
  unfold Protocol.begin_step
  dsimp only
  split
  · exact h
  · exact h

theorem transmission_tick_ChannelInv (p : Protocol) (h : ChannelInv p) :
    ChannelInv (p.transmission_tick).1 := by
  unfold Protocol.transmission_tick
  split
  · dsimp only
    split
    · exact complete_transmission_ChannelInv _
    · exact h
  · exact h

theorem process_step_ChannelInv (p : Protocol) (h : ChannelInv p) :
    ChannelInv (p.process_step).1 := by
  unfold Protocol.process_step
  dsimp only
  obtain ⟨q0, e0, he0⟩ : ∃ q e, p.begin_step.transmission_tick = (q, e) := ⟨_, _, rfl⟩
  have h0 : ChannelInv q0 := by
    have hx := transmission_tick_ChannelInv p.begin_step (begin_step_ChannelInv p h)
    rwa [he0] at hx
  rw [he0]
  dsimp only
  obtain ⟨q1, w1, e1, he1⟩ : ∃ q w e,
      q0.station_loop (q0.stations.map (fun s => s.id)) = (q, w, e) := ⟨_, _, _, rfl⟩
  have h1 : ChannelInv q1 := by
    have hfr := station_loop_channel q0 (q0.stations.map (fun s => s.id))
    rw [he1] at hfr
    dsimp only at hfr
    unfold ChannelInv
    rw [hfr.1, hfr.2]
    exact h0
  rw [he1]
  dsimp only
  split
  · obtain ⟨q2, e2, he2⟩ : ∃ q e, q1.handle_contention_resolution w1 = (q, e) := ⟨_, _, rfl⟩
    have h2 := resolution_ChannelInv q1 w1 h1
    rw [he2] at h2
    rw [he2]
    exact h2
  · exact h1

theorem applyOp_ChannelInv (p : Protocol) (op : Op) (h : ChannelInv p) :
    ChannelInv (applyOp p op) := by
  cases op with
  | addStation => exact h
  | removeStation sid => exact h
  | sendMessage s r d mid => exact h
  | setError sid v => exact h
  | step => exact process_step_ChannelInv p h

theorem reachable_ChannelInv (p : Protocol) (h : Reachable p) : ChannelInv p := by
  induction h with
  | init rand => rfl
  | step p op hp ih => exact applyOp_ChannelInv p op ih

/-- C5: for every reachable engine state, `channel_busy` is true if and only
if an in-flight frame is present (`current_transmission` is not `None`). -/
theorem channel_busy_iff_in_flight (p : Protocol) (h : Reachable p) :
    p.channel_busy = true ↔ p.current_transmission ≠ none := by
  rw [reachable_ChannelInv p h]
  exact Option.isSome_iff_ne_none

theorem channel_busy_iff_in_flight_witness :
    ((runOps (initProtocol [0, 0, 0]) [Op.addStation, Op.addStation,
        Op.sendMessage 1 2 "hi" 1, Op.step]).channel_busy = true
      ↔ (runOps (initProtocol [0, 0, 0]) [Op.addStation, Op.addStation,
        Op.sendMessage 1 2 "hi" 1, Op.step]).current_transmission ≠ none) :=
  channel_busy_iff_in_flight _
    (Reachable.step _ Op.step (Reachable.step _ (Op.sendMessage 1 2 "hi" 1)
      (Reachable.step _ Op.addStation (Reachable.step _ Op.addStation
        (Reachable.init [0, 0, 0])))))

/-! Claim C3: retry-counter behaviour.  The claimed invariant
`retry_counter < MAX_RETRIES` fails on reachable states (collisions increment
the counter without bound; only the timeout path caps it), while the reset on
message completion does hold. -/

theorem Reachable_runOps (p : Protocol) (h : Reachable p) (ops : List Op) :
    Reachable (runOps p ops) := by
  induction ops generalizing p with
  | nil => exact h
  | cons op rest ih => exact ih (applyOp p op) (Reachable.step p op h)

/-- C3 (amended): `retry_counter` is reset to 0 whenever the station's current
message completes — on ACK success, and on permanent failure in the timeout
handler — and `_handle_timeout` always leaves the timed-out station's retry
counter strictly below `MAX_RETRIES`; the claimed invariant
`retry_counter < MAX_RETRIES` over all reachable states is false, because
collision handling increments the counter without bound (see the
counterexample). -/
theorem retry_reset_and_timeout_bound :
    (∀ (p : Protocol) (sid : Nat) (st : Station) (m : Message),
       p.getStation sid = some st →
       st.state = StationState.WAITING_CTS ∨ st.state = StationState.WAITING_ACK →
       st.current_message = some m →
       st.backoff_timer = 0 →
       ∃ st', (p.handle_timeout sid).1.getStation sid = some st' ∧
         st'.retry_counter < MAX_RETRIES ∧
         (MAX_RETRIES - 1 ≤ st.retry_counter → st'.retry_counter = 0))
    ∧ (∀ (p : Protocol) (pkt : Packet) (ss st : Station),
       p.getStation pkt.sender_id = some ss →
       p.getStation pkt.receiver_id = some st →
       st.state = StationState.WAITING_ACK →
       ∃ st', (p.handle_ack_received pkt).1.getStation pkt.receiver_id = some st' ∧
         st'.retry_counter = 0) := by
  constructor
  · intro p sid st m hst hw hm hb
    have hM : MAX_RETRIES = 10 := rfl
    rcases Nat.lt_or_ge st.retry_counter (MAX_RETRIES - 1) with hlt | hge
    · obtain ⟨-, st', hgs, hretry, -⟩ :=
        (handle_timeout_cases p sid st m hst hw hm hb).2 hlt
      refine ⟨st', hgs, ?_, ?_⟩
      · rw [hretry, hM]; rw [hM] at hlt; omega
      · intro hge2; rw [hM] at hlt hge2; omega
    · obtain ⟨-, st', hgs, -, -, -, -, -, hretry, -⟩ :=
        (handle_timeout_cases p sid st m hst hw hm hb).1 hge
      exact ⟨st', hgs, by rw [hretry]; decide, fun _ => hretry⟩
  · intro p pkt ss st hs hr hwa
    obtain ⟨-, st', hgs, -, hretry, -⟩ :=
      handle_ack_received_cases p pkt ss st hs hr hwa
    exact ⟨st', hgs, hretry⟩

theorem retry_reset_and_timeout_bound_witness :
    ∃ st', ((Protocol.handle_timeout
        ⟨[⟨1, StationState.WAITING_ACK, [⟨1, 2, "z", 5⟩], some ⟨1, 2, "z", 5⟩, 0, 0, false,
            none, none, 9, 0, 0, []⟩],
         false, none, 0, 0, [], 0, 0, 0, 0, [0, 0, 0]⟩ 1).1.getStation 1 = some st' ∧
      st'.retry_counter < MAX_RETRIES ∧ st'.retry_counter = 0) := by
  obtain ⟨st', hgs, hlt, himp⟩ := retry_reset_and_timeout_bound.1
    ⟨[⟨1, StationState.WAITING_ACK, [⟨1, 2, "z", 5⟩], some ⟨1, 2, "z", 5⟩, 0, 0, false,
        none, none, 9, 0, 0, []⟩],
     false, none, 0, 0, [], 0, 0, 0, 0, [0, 0, 0]⟩ 1
    ⟨1, StationState.WAITING_ACK, [⟨1, 2, "z", 5⟩], some ⟨1, 2, "z", 5⟩, 0, 0, false,
      none, none, 9, 0, 0, []⟩ ⟨1, 2, "z", 5⟩
    (by decide) (Or.inr rfl) rfl rfl
  exact ⟨st', hgs, hlt, himp (by decide)⟩

set_option maxRecDepth 100000 in
/-- C3 counterexample: letting stations 1 and 2 collide repeatedly for 61
ticks (every backoff draw being 0) reaches a state in which station 1's
`retry_counter` equals `MAX_RETRIES`, refuting the claimed strict bound
`retry_counter < MAX_RETRIES` for reachable states. -/
theorem retry_bound_counterexample :
    Reachable collisionDemo ∧
    (collisionDemo.getStation 1).map Station.retry_counter = some MAX_RETRIES ∧
    (collisionDemo.getStation 1).map
        (fun s => decide (s.retry_counter < MAX_RETRIES)) = some false := by
  refine ⟨?_, by decide, by decide⟩
  exact Reachable_runOps (initProtocol (List.replicate 40 0))
    (Reachable.init (List.replicate 40 0)) collisionOps

/-! Claim C8: id allocation in `add_station`.  The loop starts its search at
`len(stations) + 1`, so after removals the returned id is the smallest unused
id at or above that start, not the globally smallest unused positive
integer. -/

theorem exists_unused_above (ids : List Nat) (c : Nat) :
    ∃ k, k ≤ ids.length ∧ c + k ∉ ids := by
  by_contra hcon
  push_neg at hcon
  have hsub : Finset.Icc c (c + ids.length) ⊆ ids.toFinset := by
    intro x hx
    rw [Finset.mem_Icc] at hx
    have hmem := hcon (x - c) (by omega)
    rw [List.mem_toFinset]
    have hxe : c + (x - c) = x := by omega
    rwa [hxe] at hmem
  have hcard := Finset.card_le_card hsub
  rw [Nat.card_Icc] at hcard
  have hlen := ids.toFinset_card_le
  omega

theorem findFreeId_spec (ids : List Nat) (f : Nat) :
    ∀ c, (∃ k, k ≤ f ∧ c + k ∉ ids) →
      findFreeId ids c f ∉ ids ∧ c ≤ findFreeId ids c f ∧
      ∀ j, c ≤ j → j < findFreeId ids c f → j ∈ ids := by
  induction f with
  | zero =>
    intro c h
    obtain ⟨k, hk, hni⟩ := h
    simp only [Nat.le_zero] at hk
    subst hk
    simp only [findFreeId]
    exact ⟨by simpa using hni, Nat.le_refl c,
      fun j h1 h2 => absurd h2 (Nat.not_lt.mpr h1)⟩
  | succ f ih =>
    intro c h
    by_cases hc : c ∈ ids
    · have heq : findFreeId ids c (f + 1) = findFreeId ids (c + 1) f := by
        simp only [findFreeId, if_pos hc]
      obtain ⟨k, hk, hni⟩ := h
      have hk0 : k ≠ 0 := by
        rintro rfl
        exact hni (by simpa using hc)
      obtain ⟨k1, rfl⟩ : ∃ k1, k = k1 + 1 := ⟨k - 1, by omega⟩
      have h1 : ∃ k2, k2 ≤ f ∧ (c + 1) + k2 ∉ ids := by
        refine ⟨k1, by omega, ?_⟩
        rw [show c + 1 + k1 = c + (k1 + 1) by omega]
        exact hni
      obtain ⟨ha, hb, hmin⟩ := ih (c + 1) h1
      rw [heq]
      refine ⟨ha, by omega, fun j hj1 hj2 => ?_⟩
      rcases Nat.eq_or_lt_of_le hj1 with rfl | hlt
      · exact hc
      · exact hmin j hlt hj2
    · have heq : findFreeId ids c (f + 1) = c := by
        simp only [findFreeId, if_neg hc]
      rw [heq]
      exact ⟨hc, Nat.le_refl c, fun j h1 h2 => absurd h2 (by omega)⟩

/-- C8 (amended): `add_station` returns a positive id that differs from every
existing station's id and appends the new station with that id; the id is the
smallest unused integer at or above `len(stations) + 1`, which after removals
need not be the smallest unused positive integer overall (see the
counterexample). -/
theorem add_station_spec (p : Protocol) :
    0 < (p.add_station).2 ∧
    (p.add_station).2 ∉ p.stations.map (·.id) ∧
    p.stations.length + 1 ≤ (p.add_station).2 ∧
    (∀ j, p.stations.length + 1 ≤ j → j < (p.add_station).2 →
       j ∈ p.stations.map (·.id)) ∧
    (p.add_station).1.stations.map (·.id)
      = p.stations.map (·.id) ++ [(p.add_station).2] := by
  have hex : ∃ k, k ≤ p.stations.length + 1 ∧
      (p.stations.length + 1) + k ∉ p.stations.map (·.id) := by
    obtain ⟨k, hk, hni⟩ :=
      exists_unused_above (p.stations.map (·.id)) (p.stations.length + 1)
    refine ⟨k, ?_, hni⟩
    simp only [List.length_map] at hk
    omega
  obtain ⟨ha, hb, hmin⟩ :=
    findFreeId_spec (p.stations.map (·.id)) (p.stations.length + 1)
      (p.stations.length + 1) hex
  have h2 : (p.add_station).2
      = findFreeId (p.stations.map (·.id)) (p.stations.length + 1)
          (p.stations.length + 1) := rfl
  rw [h2]
  refine ⟨by omega, ha, hb, hmin, ?_⟩
  simp [Protocol.add_station]

theorem add_station_spec_witness :
    0 < (idDemo.add_station).2 ∧
    (idDemo.add_station).2 ∉ idDemo.stations.map (·.id) ∧
    (idDemo.add_station).2 = 4 := by
  obtain ⟨h1, h2, -⟩ := add_station_spec idDemo
  exact ⟨h1, h2, by decide⟩

/-- C8 counterexample: after adding three stations and removing station 2, the
ids in use are `[1, 3]`; the smallest unused positive integer is 2, yet
`add_station` — which starts its search at `len(stations) + 1 = 3` — returns
4. -/
theorem add_station_not_minimal :
    idDemo.stations.map Station.id = [1, 3] ∧
    (idDemo.add_station).2 = 4 ∧
    2 ∉ idDemo.stations.map Station.id ∧ 0 < 2 ∧ 2 < 4 := by decide

/-! Claim C4: the fault scenario.  `runOpsTr` over an appended operation list
splits into segment runs; each 300-tick segment of the fault run is checked
against its pre-computed checkpoint, and the claim's final-state assertions
are read off the last checkpoint and the accumulated events. -/

theorem runOpsTr_append (xs : List Op) : ∀ (p : Protocol) (ys : List Op),
    runOpsTr p (xs ++ ys)
      = ((runOpsTr (runOpsTr p xs).1 ys).1,
         (runOpsTr p xs).2 ++ (runOpsTr (runOpsTr p xs).1 ys).2) := by
  induction xs with
  | nil =>
    intro p ys
    simp [runOpsTr]
  | cons op rest ih =>
    intro p ys
    simp only [List.cons_append, runOpsTr]
    obtain ⟨q, e, hqe⟩ : ∃ q e, applyOpTr p op = (q, e) := ⟨_, _, rfl⟩
    rw [hqe]
    dsimp only
    simp only [List.append_eq]
    rw [ih q ys]
    obtain ⟨q2, e2, hq2⟩ : ∃ q2 e2, runOpsTr q rest = (q2, e2) := ⟨_, _, rfl⟩
    rw [hq2]
    dsimp only
    simp [List.append_assoc]

set_option maxRecDepth 1000000 in
theorem fault_seg1 :
    runOpsTr (initProtocol faultRand) faultSeg1 = (faultCkpt1, faultEvs1) := by decide

set_option maxRecDepth 1000000 in
theorem fault_seg2 :
    runOpsTr faultCkpt1 stepBlock = (faultCkpt2, faultEvs2) := by decide

set_option maxRecDepth 1000000 in
theorem fault_seg3 :
    runOpsTr faultCkpt2 stepBlock = (faultCkpt3, faultEvs3) := by decide

set_option maxRecDepth 1000000 in
theorem fault_seg4 :
    runOpsTr faultCkpt3 stepBlock = (faultCkpt4, faultEvs4) := by decide

set_option maxRecDepth 1000000 in
theorem fault_seg5 :
    runOpsTr faultCkpt4 stepBlock = (faultCkpt5, faultEvs5) := by decide

set_option maxRecDepth 1000000 in
theorem fault_seg6 :
    runOpsTr faultCkpt5 stepBlock = (faultCkpt6, faultEvs6) := by decide

set_option maxRecDepth 1000000 in
theorem fault_seg7 :
    runOpsTr faultCkpt6 stepBlock = (faultCkpt7, faultEvs7) := by decide

set_option maxRecDepth 1000000 in
theorem fault_seg8 :
    runOpsTr faultCkpt7 stepBlock = (faultCkpt8, faultEvs8) := by decide

set_option maxRecDepth 1000000 in
theorem fault_seg9 :
    runOpsTr faultCkpt8 stepBlock = (faultCkpt9, faultEvs9) := by decide

set_option maxRecDepth 1000000 in
theorem fault_seg10 :
    runOpsTr faultCkpt9 stepBlock = (faultCkpt10, faultEvs10) := by decide

set_option maxRecDepth 1000000 in
theorem fault_seg11 :
    runOpsTr faultCkpt10 stepBlock = (faultCkpt11, faultEvs11) := by decide

set_option maxRecDepth 1000000 in
theorem fault_seg12 :
    runOpsTr faultCkpt11 stepBlock = (faultCkpt12, faultEvs12) := by decide

set_option maxRecDepth 1000000 in
theorem fault_seg13 :
    runOpsTr faultCkpt12 stepBlock = (faultCkpt13, faultEvs13) := by decide

/-- C4 (amended): in the fault scenario — stations 1 and 2 with station 2's
fault flag set and one message enqueued from 1 to 2 — running the engine to
exhaustion (3900 ticks; it stabilises at tick 3652) permanently fails the
message after `MAX_RETRIES` timeout cycles, station 1 ends IDLE with an empty
queue, no current message and its retry counter reset, station 2's history
records no receipt at all, and no delivery event is ever emitted; but
`failed_transmissions` ends at 11, not 1: the receiver's drop of each DATA
frame already incremented it ten times before the final retry-limit failure
added one more. -/
theorem fault_scenario_spec :
    (runOpsTr (initProtocol faultRand) faultOps).1.failed_transmissions = 11 ∧
    (runOpsTr (initProtocol faultRand) faultOps).1.successful_transmissions = 0 ∧
    ((runOpsTr (initProtocol faultRand) faultOps).1.getStation 1).map
        (fun s => (s.state, s.message_queue, s.current_message, s.retry_counter))
      = some (StationState.IDLE, [], none, 0) ∧
    ((runOpsTr (initProtocol faultRand) faultOps).1.getStation 2).map
        Station.transmission_history = some [] ∧
    ((runOpsTr (initProtocol faultRand) faultOps).2.countP
        (fun e => e matches Event.timeoutExpired 1)) = MAX_RETRIES ∧
    ((runOpsTr (initProtocol faultRand) faultOps).2.countP
        (fun e => e matches Event.messageDelivered _ _)) = 0 := by
  simp only [faultOps, runOpsTr_append, fault_seg1, fault_seg2, fault_seg3,
    fault_seg4, fault_seg5, fault_seg6, fault_seg7, fault_seg8, fault_seg9,
    fault_seg10, fault_seg11, fault_seg12, fault_seg13]
  decide

/-- C4 counterexample: the very fault run the claim describes ends with
`failed_transmissions = 11`, refuting the claimed final value of 1. -/
theorem fault_scenario_counterexample :
    (runOpsTr (initProtocol faultRand) faultOps).1.failed_transmissions = 11 ∧
    (runOpsTr (initProtocol faultRand) faultOps).1.failed_transmissions ≠ 1 := by
  simp only [faultOps, runOpsTr_append, fault_seg1, fault_seg2, fault_seg3,
    fault_seg4, fault_seg5, fault_seg6, fault_seg7, fault_seg8, fault_seg9,
    fault_seg10, fault_seg11, fault_seg12, fault_seg13]
  decide
